import Mathlib

/-!
# Statement compilation and dispatch of rucbase (`src/portal.h`, `src/optimizer/optimizer.h`)

A shallow embedding of `Portal::start`, `Portal::convert_plan_executor`, `Portal::run`,
`Portal::drop` and `Optimizer::plan_query`.

Conventions of the embedding
* A `std::shared_ptr<Plan>` / `std::unique_ptr<AbstractExecutor>` value is a tree whose
  leaves may be `nullptr`; the dynamic class of the pointee is the constructor.
* A C++ call that mutates an object it reaches through a pointer returns the object's
  state after the call next to its result (`Effect.plan`, `RunResult.portal`).
* `std::move(v)` handed to a by-value parameter leaves the source empty (vector) or
  null (`unique_ptr`).
* What operators do when driven (`beginTuple`, `is_end`, `rid`, `nextTuple`) and what the
  `QlManager` and the `Planner` do lives outside these two headers; it is a parameter.
-/

namespace Rucbase

/-! ## Data model -/

/-- Modelled from the spec: `optimizer/plan.h` is not among the sources. Enumerators of
`PlanTag` that the two headers name, and `T_Other n` for every further enumerator. -/
inductive PlanTag
  | T_Help
  | T_ShowTable
  | T_DescTable
  | T_Transaction_begin
  | T_Transaction_abort
  | T_Transaction_commit
  | T_Transaction_rollback
  | T_select
  | T_Update
  | T_Delete
  | T_Insert
  | T_SeqScan
  | T_Other (n : Nat)
  deriving DecidableEq, Repr

/-- Modelled from the spec: `common/common.h` is not among the sources. A column
reference. -/
structure TabCol where
  tab_name : String
  col_name : String
  deriving DecidableEq, Repr

/-- Modelled from the spec: `common/common.h` is not among the sources. A literal; a
float literal is kept by its bit pattern. -/
inductive Value
  | int_val (i : Int)
  | float_val (bits : Nat)
  | str_val (s : String)
  deriving DecidableEq, Repr

/-- Modelled from the spec: comparison operators of a predicate atom. -/
inductive CompOp
  | OP_EQ | OP_NE | OP_LT | OP_GT | OP_LE | OP_GE
  deriving DecidableEq, Repr

/-- Modelled from the spec: one atom of a predicate (`std::vector<Condition>` is a
conjunction). -/
structure Condition where
  lhs_col : TabCol
  op : CompOp
  is_rhs_val : Bool
  rhs_col : TabCol
  rhs_val : Value
  deriving DecidableEq, Repr

/-- Modelled from the spec: one assignment of an UPDATE. -/
structure SetClause where
  lhs : TabCol
  rhs : Value
  deriving DecidableEq, Repr

/-- Modelled from the spec: a physical row identifier. -/
structure Rid where
  page_no : Int
  slot_no : Int
  deriving DecidableEq, Repr

/-- Modelled from the spec: the `Context *` handed through every call, never
dereferenced by the two headers. -/
structure Context where
  id : Nat
  deriving DecidableEq, Repr

/-- Modelled from the spec: the `SmManager *` a `Portal` holds and hands to the operators
it builds, never dereferenced by the two headers. -/
structure SmManager where
  handle : Nat
  deriving DecidableEq, Repr

/-- Modelled from the spec: `optimizer/plan.h` is not among the sources. A value of
`std::shared_ptr<Plan>`: `nullptr`, or an object whose dynamic class is the constructor;
`base` is an object of class `Plan` itself or of a subclass the headers do not name.
Every object carries the `tag` field of the base class, independent of its class. -/
inductive Plan
  | nullptr
  | base (tag : PlanTag)
  | OtherPlan (tag : PlanTag) (tab_name_ : String)
  | DDLPlan (tag : PlanTag) (tab_name_ : String) (tab_col_names_ : List String)
  | DMLPlan (tag : PlanTag) (subplan_ : Plan) (tab_name_ : String) (values_ : List Value)
      (conds_ : List Condition) (set_clauses_ : List SetClause)
  | ProjectionPlan (tag : PlanTag) (subplan_ : Plan) (sel_cols_ : List TabCol)
  | ScanPlan (tag : PlanTag) (tab_name_ : String) (conds_ : List Condition)
      (index_col_names_ : List String)
  | JoinPlan (tag : PlanTag) (left_ : Plan) (right_ : Plan) (conds_ : List Condition)
  | SortPlan (tag : PlanTag) (subplan_ : Plan) (sel_col_ : TabCol) (is_desc_ : Bool)
  deriving DecidableEq, Repr

/-- Modelled from the spec: the `execution/executor_*.h` headers are not among the
sources. A value of `std::unique_ptr<AbstractExecutor>`: `nullptr`, or an operator that
holds exactly the arguments its constructor is called with in `portal.h`; constructors
are taken to store their arguments and not to fail. -/
inductive AbstractExecutor
  | nullptr
  | ProjectionExecutor (prev : AbstractExecutor) (sel_cols : List TabCol)
  | SeqScanExecutor (sm_manager : SmManager) (tab_name : String) (conds : List Condition)
      (context : Context)
  | IndexScanExecutor (sm_manager : SmManager) (tab_name : String) (conds : List Condition)
      (index_col_names : List String) (context : Context)
  | NestedLoopJoinExecutor (left : AbstractExecutor) (right : AbstractExecutor)
      (conds : List Condition)
  | SortExecutor (prev : AbstractExecutor) (sel_col : TabCol) (is_desc : Bool)
  | UpdateExecutor (sm_manager : SmManager) (tab_name : String)
      (set_clauses : List SetClause) (conds : List Condition) (rids : List Rid)
      (context : Context)
  | DeleteExecutor (sm_manager : SmManager) (tab_name : String) (conds : List Condition)
      (rids : List Rid) (context : Context)
  | InsertExecutor (sm_manager : SmManager) (tab_name : String) (values : List Value)
      (context : Context)
  deriving DecidableEq, Repr

/-- The enum `portalTag` of `portal.h`. -/
inductive portalTag
  | PORTAL_Invalid_Query
  | PORTAL_ONE_SELECT
  | PORTAL_DML_WITHOUT_SELECT
  | PORTAL_MULTI_QUERY
  | PORTAL_CMD_UTILITY
  deriving DecidableEq, Repr

/-- The struct `PortalStmt` of `portal.h`. The field `plan` is a shared pointer: it holds
the state of the plan object it points to. -/
structure PortalStmt where
  tag : portalTag
  sel_cols : List TabCol
  root : AbstractExecutor
  plan : Plan
  deriving DecidableEq, Repr

/-- A C++ exception: `InternalError`, the only one the two headers throw, or any other
one raised by a collaborator. -/
inductive Exception
  | InternalError (msg : String)
  | other (what : String)
  deriving DecidableEq, Repr

/-- How a call ends: it returns a value, it throws, it dereferences a null pointer
(undefined behaviour), or it is still running when the fuel of the model is used up. -/
inductive Outcome (α : Type)
  | returns (a : α)
  | throws (e : Exception)
  | undefined
  | unfinished
  deriving DecidableEq, Repr

/-- The virtual iteration methods of `AbstractExecutor`, defined outside `portal.h`:
`fresh` is the internal state of an operator right after construction (it may depend on
the storage), the others are the four methods the snapshot loop calls. `is_end` and
`rid` read the state, `beginTuple` and `nextTuple` replace it; each may throw. -/
structure ExecutorMethods (σ : Type) where
  fresh : AbstractExecutor → σ
  beginTuple : σ → Except Exception σ
  is_end : σ → Except Exception Bool
  rid : σ → Except Exception Rid
  nextTuple : σ → Except Exception σ

/-- What a call does to its collaborators, in program order: an operator is constructed
(`std::make_unique`), or a method of the temporary scan operator is called. -/
inductive Event
  | make (e : AbstractExecutor)
  | beginTuple
  | is_end
  | rid
  | nextTuple
  deriving DecidableEq, Repr

/-- The result of a call that receives a plan pointer: its value, the state of the plan
object after the call, and the events of the call. -/
structure Effect (α : Type) where
  value : α
  plan : Plan
  trace : List Event

/-- The class `Portal`: its only member is `sm_manager_`. -/
structure Portal where
  sm_manager_ : SmManager
  deriving DecidableEq, Repr

/-! ## `Portal::convert_plan_executor` (portal.h 148-167) -/

/-- Lowering of a plan tree into an operator tree. The cast chain is the match on the
constructor; `std::move(x->conds_)` of the join case leaves the plan's vector empty (the
constructor of `NestedLoopJoinExecutor`, outside the two headers, is taken to receive the
vector by value); every plan that is none of the four classes, and `nullptr`, falls
through to `return nullptr`. -/
def Portal.convert_plan_executor (self : Portal) : Plan → Context → Effect AbstractExecutor
  | .ProjectionPlan tag subplan_ sel_cols_, context =>
      let c := self.convert_plan_executor subplan_ context
      let e := AbstractExecutor.ProjectionExecutor c.value sel_cols_
      ⟨e, .ProjectionPlan tag c.plan sel_cols_, c.trace ++ [.make e]⟩
  | .ScanPlan tag tab_name_ conds_ index_col_names_, context =>
      if tag = PlanTag.T_SeqScan then
        let e := AbstractExecutor.SeqScanExecutor self.sm_manager_ tab_name_ conds_ context
        ⟨e, .ScanPlan tag tab_name_ conds_ index_col_names_, [.make e]⟩
      else
        let e := AbstractExecutor.IndexScanExecutor self.sm_manager_ tab_name_ conds_
          index_col_names_ context
        ⟨e, .ScanPlan tag tab_name_ conds_ index_col_names_, [.make e]⟩
  | .JoinPlan tag left_ right_ conds_, context =>
      let left := self.convert_plan_executor left_ context
      let right := self.convert_plan_executor right_ context
      let join := AbstractExecutor.NestedLoopJoinExecutor left.value right.value conds_
      ⟨join, .JoinPlan tag left.plan right.plan [], left.trace ++ right.trace ++ [.make join]⟩
  | .SortPlan tag subplan_ sel_col_ is_desc_, context =>
      let c := self.convert_plan_executor subplan_ context
      let e := AbstractExecutor.SortExecutor c.value sel_col_ is_desc_
      ⟨e, .SortPlan tag c.plan sel_col_ is_desc_, c.trace ++ [.make e]⟩
  | .nullptr, _ => ⟨.nullptr, .nullptr, []⟩
  | .base tag, _ => ⟨.nullptr, .base tag, []⟩
  | .OtherPlan tag tab_name_, _ => ⟨.nullptr, .OtherPlan tag tab_name_, []⟩
  | .DDLPlan tag tab_name_ tab_col_names_, _ =>
      ⟨.nullptr, .DDLPlan tag tab_name_ tab_col_names_, []⟩
  | .DMLPlan tag subplan_ tab_name_ values_ conds_ set_clauses_, _ =>
      ⟨.nullptr, .DMLPlan tag subplan_ tab_name_ values_ conds_ set_clauses_, []⟩

/-! ## `Portal::start` (portal.h 53-104) -/

/-- The loop `for (...; !scan->is_end(); scan->nextTuple()) rids.push_back(scan->rid())`
from the state reached after `beginTuple`, with `rids` the vector filled so far. -/
def for_loop {σ : Type} (m : ExecutorMethods σ) :
    Nat → σ → List Rid → Outcome (List Rid) × List Event
  | 0, _, _ => (.unfinished, [])
  | fuel + 1, s, rids =>
      match m.is_end s with
      | .error e => (.throws e, [.is_end])
      | .ok true => (.returns rids, [.is_end])
      | .ok false =>
          match m.rid s with
          | .error e => (.throws e, [.is_end, .rid])
          | .ok r =>
              match m.nextTuple s with
              | .error e => (.throws e, [.is_end, .rid, .nextTuple])
              | .ok s' =>
                  let rest := for_loop m fuel s' (rids ++ [r])
                  (rest.1, [.is_end, .rid, .nextTuple] ++ rest.2)

/-- Lines 71-74 and 80-83: the snapshot of row identifiers taken from the temporary scan
operator. Calling `beginTuple` through a null `scan` is undefined behaviour. -/
def collect_rids {σ : Type} (m : ExecutorMethods σ) (fuel : Nat) (scan : AbstractExecutor) :
    Outcome (List Rid) × List Event :=
  match scan with
  | .nullptr => (.undefined, [])
  | scan =>
      match m.beginTuple (m.fresh scan) with
      | .error e => (.throws e, [.beginTuple])
      | .ok s =>
          let loop := for_loop m fuel s []
          (loop.1, [.beginTuple] ++ loop.2)

/-- The cast `std::dynamic_pointer_cast<ProjectionPlan>` of line 63. -/
def dynamic_pointer_cast_ProjectionPlan : Plan → Plan
  | .ProjectionPlan tag subplan_ sel_cols_ => .ProjectionPlan tag subplan_ sel_cols_
  | _ => .nullptr

/-- The expression `std::move(p->sel_cols_)` of line 65, bound to the by-value parameter
of the `PortalStmt` constructor: the columns taken and the plan object left with an empty
vector; `none` when `p` is null (the dereference is undefined behaviour). -/
def move_sel_cols_ : Plan → Option (List TabCol × Plan)
  | .ProjectionPlan tag subplan_ sel_cols_ => some (sel_cols_, .ProjectionPlan tag subplan_ [])
  | _ => none

/-- The method `Portal::start`. -/
def Portal.start {σ : Type} (self : Portal) (m : ExecutorMethods σ) (fuel : Nat)
    (plan : Plan) (context : Context) : Effect (Outcome PortalStmt) :=
  match plan with
  | .OtherPlan _ _ =>
      ⟨.returns ⟨.PORTAL_CMD_UTILITY, [], .nullptr, plan⟩, plan, []⟩
  | .DDLPlan _ _ _ =>
      ⟨.returns ⟨.PORTAL_MULTI_QUERY, [], .nullptr, plan⟩, plan, []⟩
  | .DMLPlan tag subplan_ tab_name_ values_ conds_ set_clauses_ =>
      match tag with
      | .T_select =>
          let p := dynamic_pointer_cast_ProjectionPlan subplan_
          let root := self.convert_plan_executor p context
          match move_sel_cols_ root.plan with
          | none => ⟨.undefined, plan, root.trace⟩
          | some (sel_cols, p_after) =>
              let after := Plan.DMLPlan tag p_after tab_name_ values_ conds_ set_clauses_
              ⟨.returns ⟨.PORTAL_ONE_SELECT, sel_cols, root.value, after⟩, after, root.trace⟩
      | .T_Update =>
          let scan := self.convert_plan_executor subplan_ context
          let after := Plan.DMLPlan tag scan.plan tab_name_ values_ conds_ set_clauses_
          let snap := collect_rids m fuel scan.value
          match snap.1 with
          | .returns rids =>
              let root := AbstractExecutor.UpdateExecutor self.sm_manager_ tab_name_
                set_clauses_ conds_ rids context
              ⟨.returns ⟨.PORTAL_DML_WITHOUT_SELECT, [], root, after⟩, after,
                scan.trace ++ snap.2 ++ [.make root]⟩
          | .throws e => ⟨.throws e, after, scan.trace ++ snap.2⟩
          | .undefined => ⟨.undefined, after, scan.trace ++ snap.2⟩
          | .unfinished => ⟨.unfinished, after, scan.trace ++ snap.2⟩
      | .T_Delete =>
          let scan := self.convert_plan_executor subplan_ context
          let after := Plan.DMLPlan tag scan.plan tab_name_ values_ conds_ set_clauses_
          let snap := collect_rids m fuel scan.value
          match snap.1 with
          | .returns rids =>
              let root := AbstractExecutor.DeleteExecutor self.sm_manager_ tab_name_ conds_
                rids context
              ⟨.returns ⟨.PORTAL_DML_WITHOUT_SELECT, [], root, after⟩, after,
                scan.trace ++ snap.2 ++ [.make root]⟩
          | .throws e => ⟨.throws e, after, scan.trace ++ snap.2⟩
          | .undefined => ⟨.undefined, after, scan.trace ++ snap.2⟩
          | .unfinished => ⟨.unfinished, after, scan.trace ++ snap.2⟩
      | .T_Insert =>
          let root := AbstractExecutor.InsertExecutor self.sm_manager_ tab_name_ values_
            context
          ⟨.returns ⟨.PORTAL_DML_WITHOUT_SELECT, [], root, plan⟩, plan, [.make root]⟩
      | _ => ⟨.throws (.InternalError "Unexpected field type"), plan, []⟩
  | _ => ⟨.throws (.InternalError "Unexpected field type"), plan, []⟩

/-! ## `Portal::run` (portal.h 116-140) and `Portal::drop` (142-145) -/

/-- Modelled from the spec: `transaction/txn_defs.h` is not among the sources. The
transaction identifier `run` receives by pointer and hands on. -/
abbrev txn_id_t := Int

/-- Modelled from the spec: `execution/execution_manager.h` is not among the sources.
The four entry points of `QlManager` that `run` calls; each returns nothing and may
throw. -/
structure QlManager where
  select_from : AbstractExecutor → List TabCol → Context → Except Exception Unit
  run_dml : AbstractExecutor → Except Exception Unit
  run_mutli_query : Plan → Context → Except Exception Unit
  run_cmd_utility : Plan → txn_id_t → Context → Except Exception Unit

/-- A call of `run` into the `QlManager`, with the arguments it is made with. -/
inductive QlCall
  | select_from (root : AbstractExecutor) (sel_cols : List TabCol) (context : Context)
  | run_dml (root : AbstractExecutor)
  | run_mutli_query (plan : Plan) (context : Context)
  | run_cmd_utility (plan : Plan) (txn_id : txn_id_t) (context : Context)
  deriving DecidableEq, Repr

/-- The result of `run`: how it ends, the state of the compiled statement after the
call, and the calls made into the `QlManager`, in order. -/
structure RunResult where
  outcome : Outcome Unit
  portal : PortalStmt
  calls : List QlCall

/-- A collaborator call that returns nothing: it returns or it throws. -/
def Outcome.of_call : Except Exception Unit → Outcome Unit
  | .ok _ => .returns ()
  | .error e => .throws e

/-- The method `Portal::run`. `std::move(portal->root)` and `std::move(portal->sel_cols)`
initialise the parameters of `select_from` and `run_dml` (taken to be by-value, as a
`unique_ptr` argument requires), which leaves the statement with a null root and an
empty column vector before the callee runs. -/
def Portal.run (_self : Portal) (portal : PortalStmt) (ql : QlManager) (txn_id : txn_id_t)
    (context : Context) : RunResult :=
  match portal.tag with
  | .PORTAL_ONE_SELECT =>
      ⟨Outcome.of_call (ql.select_from portal.root portal.sel_cols context),
        { portal with root := .nullptr, sel_cols := [] },
        [.select_from portal.root portal.sel_cols context]⟩
  | .PORTAL_DML_WITHOUT_SELECT =>
      ⟨Outcome.of_call (ql.run_dml portal.root),
        { portal with root := .nullptr },
        [.run_dml portal.root]⟩
  | .PORTAL_MULTI_QUERY =>
      ⟨Outcome.of_call (ql.run_mutli_query portal.plan context), portal,
        [.run_mutli_query portal.plan context]⟩
  | .PORTAL_CMD_UTILITY =>
      ⟨Outcome.of_call (ql.run_cmd_utility portal.plan txn_id context), portal,
        [.run_cmd_utility portal.plan txn_id context]⟩
  | .PORTAL_Invalid_Query =>
      ⟨.throws (.InternalError "Unexpected field type"), portal, []⟩

/-- The method `Portal::drop`: its body is empty. It takes no statement; the state it
could touch is the `Portal` itself. -/
def Portal.drop (self : Portal) : Portal := self

/-! ## `Optimizer::plan_query` (optimizer.h 42-67) -/

/-- Modelled from the spec: `parser/ast.h` is not among the sources. A value of
`std::shared_ptr<ast::TreeNode>`: `nullptr` (what the parser leaves for `exit;` and for
the empty input), one of the statement classes, or `other` for any further node
class. -/
inductive TreeNode
  | nullptr
  | Help
  | ShowTables
  | DescTable (tab_name : String)
  | TxnBegin
  | TxnAbort
  | TxnCommit
  | TxnRollback
  | CreateTable (tab_name : String) (fields : List String)
  | DropTable (tab_name : String)
  | CreateIndex (tab_name : String) (col_names : List String)
  | DropIndex (tab_name : String) (col_names : List String)
  | InsertStmt (tab_name : String) (vals : List Value)
  | DeleteStmt (tab_name : String) (conds : List Condition)
  | UpdateStmt (tab_name : String) (set_clauses : List SetClause) (conds : List Condition)
  | SelectStmt (cols : List TabCol) (tabs : List String) (conds : List Condition)
  | other (kind : Nat)
  deriving DecidableEq, Repr

/-- Modelled from the spec: `analyze/analyze.h` is not among the sources. The analysed
statement; `plan_query` reads its field `parse` only. -/
structure Query where
  parse : TreeNode
  conds : List Condition
  cols : List TabCol
  tables : List String
  set_clauses : List SetClause
  values : List Value
  deriving DecidableEq, Repr

/-- Modelled from the spec: `optimizer/planner.h` is not among the sources. The one
method of `Planner` that `plan_query` calls; it returns a plan or throws. -/
structure Planner where
  do_planner : Query → Context → Except Exception Plan

/-- The class `Optimizer`. -/
structure Optimizer where
  sm_manager_ : SmManager
  planner_ : Planner

/-- The result of `plan_query`: how it ends, and the calls made to
`Planner::do_planner`, in order. -/
structure Planned where
  value : Outcome Plan
  planner_calls : List (Query × Context)

/-- The method `Optimizer::plan_query`: seven casts in the order of the source, then
the delegation. -/
def Optimizer.plan_query (self : Optimizer) (query : Query) (context : Context) : Planned :=
  match query.parse with
  | .Help => ⟨.returns (.OtherPlan .T_Help ""), []⟩
  | .ShowTables => ⟨.returns (.OtherPlan .T_ShowTable ""), []⟩
  | .DescTable tab_name => ⟨.returns (.OtherPlan .T_DescTable tab_name), []⟩
  | .TxnBegin => ⟨.returns (.OtherPlan .T_Transaction_begin ""), []⟩
  | .TxnAbort => ⟨.returns (.OtherPlan .T_Transaction_abort ""), []⟩
  | .TxnCommit => ⟨.returns (.OtherPlan .T_Transaction_commit ""), []⟩
  | .TxnRollback => ⟨.returns (.OtherPlan .T_Transaction_rollback ""), []⟩
  | _ =>
      match self.planner_.do_planner query context with
      | .ok plan => ⟨.returns plan, [(query, context)]⟩
      | .error e => ⟨.throws e, [(query, context)]⟩

/-! ## Vocabulary of the specification -/

/-- The dispatch table of the spec (section 4.2): the shape promised for a plan, `none`
for a plan the table does not list. -/
def dispatch_table : Plan → Option portalTag
  | .OtherPlan _ _ => some .PORTAL_CMD_UTILITY
  | .DDLPlan _ _ _ => some .PORTAL_MULTI_QUERY
  | .DMLPlan .T_select _ _ _ _ _ => some .PORTAL_ONE_SELECT
  | .DMLPlan .T_Update _ _ _ _ _ => some .PORTAL_DML_WITHOUT_SELECT
  | .DMLPlan .T_Delete _ _ _ _ _ => some .PORTAL_DML_WITHOUT_SELECT
  | .DMLPlan .T_Insert _ _ _ _ _ => some .PORTAL_DML_WITHOUT_SELECT
  | _ => none

/-- A plan tree built only from Projection, Scan, Join and Sort nodes. -/
def Plan.structural : Plan → Bool
  | .ProjectionPlan _ subplan_ _ => subplan_.structural
  | .ScanPlan _ _ _ _ => true
  | .JoinPlan _ left_ right_ _ => left_.structural && right_.structural
  | .SortPlan _ subplan_ _ _ => subplan_.structural
  | _ => false

/-- Number of plan objects of a plan tree (`nullptr` is no object). -/
def Plan.nodes : Plan → Nat
  | .nullptr => 0
  | .base _ => 1
  | .OtherPlan _ _ => 1
  | .DDLPlan _ _ _ => 1
  | .DMLPlan _ subplan_ _ _ _ _ => subplan_.nodes + 1
  | .ProjectionPlan _ subplan_ _ => subplan_.nodes + 1
  | .ScanPlan _ _ _ _ => 1
  | .JoinPlan _ left_ right_ _ => left_.nodes + right_.nodes + 1
  | .SortPlan _ subplan_ _ _ => subplan_.nodes + 1

/-- The operators an operator owns as children. -/
def AbstractExecutor.children : AbstractExecutor → List AbstractExecutor
  | .ProjectionExecutor prev _ => [prev]
  | .NestedLoopJoinExecutor left right _ => [left, right]
  | .SortExecutor prev _ _ => [prev]
  | _ => []

/-- Number of operator objects of an operator tree (`nullptr` is no object). -/
def AbstractExecutor.nodes : AbstractExecutor → Nat
  | .nullptr => 0
  | .ProjectionExecutor prev _ => prev.nodes + 1
  | .NestedLoopJoinExecutor left right _ => left.nodes + right.nodes + 1
  | .SortExecutor prev _ _ => prev.nodes + 1
  | _ => 1

/-- Whether an operator is one of the terminal mutation operators. -/
def AbstractExecutor.is_mutation : AbstractExecutor → Bool
  | .UpdateExecutor _ _ _ _ _ _ => true
  | .DeleteExecutor _ _ _ _ _ => true
  | .InsertExecutor _ _ _ _ => true
  | _ => false

/-- Structural lowering as the spec words it (section 4.2): one operator per plan node,
of the same shape, the access method of a scan taken from the plan. -/
def spec_lowering (sm : SmManager) (context : Context) : Plan → AbstractExecutor
  | .ProjectionPlan _ child output_columns =>
      .ProjectionExecutor (spec_lowering sm context child) output_columns
  | .ScanPlan access_method table_name predicate index_columns =>
      match access_method with
      | .T_SeqScan => .SeqScanExecutor sm table_name predicate context
      | _ => .IndexScanExecutor sm table_name predicate index_columns context
  | .JoinPlan _ left right predicate =>
      .NestedLoopJoinExecutor (spec_lowering sm context left) (spec_lowering sm context right)
        predicate
  | .SortPlan _ child key_column descending =>
      .SortExecutor (spec_lowering sm context child) key_column descending
  | _ => .nullptr

/-- The row identifiers observed when a scan positioned at `s` is advanced until
`is_end` holds: one per visited position, none when the scan is at its end. -/
def Observes {σ : Type} (m : ExecutorMethods σ) : σ → List Rid → Prop
  | s, [] => m.is_end s = .ok true
  | s, r :: rest =>
      m.is_end s = .ok false ∧ m.rid s = .ok r ∧
        ∃ s', m.nextTuple s = .ok s' ∧ Observes m s' rest

/-- A scan positioned at `s` fails with `e` after `n` positions visited without
failure: at `is_end`, at `rid` or at `nextTuple` of the next position. -/
def FailsAfter {σ : Type} (m : ExecutorMethods σ) : Nat → σ → Exception → Prop
  | 0, s, e =>
      m.is_end s = .error e ∨
        (m.is_end s = .ok false ∧
          (m.rid s = .error e ∨ ((∃ r, m.rid s = .ok r) ∧ m.nextTuple s = .error e)))
  | n + 1, s, e =>
      m.is_end s = .ok false ∧ (∃ r, m.rid s = .ok r) ∧
        ∃ s', m.nextTuple s = .ok s' ∧ FailsAfter m n s' e

/-- The events of a snapshot loop that visits `n` positions and then sees the end. -/
def loop_events : Nat → List Event
  | 0 => [.is_end]
  | n + 1 => [.is_end, .rid, .nextTuple] ++ loop_events n

/-- A plan with every Join predicate emptied, at every depth: the fields
`convert_plan_executor` hands over by `std::move`. -/
def Plan.without_join_conds : Plan → Plan
  | .DMLPlan tag subplan_ tab_name_ values_ conds_ set_clauses_ =>
      .DMLPlan tag subplan_.without_join_conds tab_name_ values_ conds_ set_clauses_
  | .ProjectionPlan tag subplan_ sel_cols_ =>
      .ProjectionPlan tag subplan_.without_join_conds sel_cols_
  | .JoinPlan tag left_ right_ _ =>
      .JoinPlan tag left_.without_join_conds right_.without_join_conds []
  | .SortPlan tag subplan_ sel_col_ is_desc_ =>
      .SortPlan tag subplan_.without_join_conds sel_col_ is_desc_
  | p => p

/-- A plan with the output columns of the Projection directly under a Mutation of kind
Select emptied: the field `start` hands over by `std::move`. -/
def Plan.without_select_cols : Plan → Plan
  | .DMLPlan .T_select (.ProjectionPlan ptag subplan_ _) tab_name_ values_ conds_
      set_clauses_ =>
      .DMLPlan .T_select (.ProjectionPlan ptag subplan_ []) tab_name_ values_ conds_
        set_clauses_
  | p => p

/-! ## Example collaborators and plans -/

/-- A scan over a fixed list of row identifiers: the state is what is left to visit. -/
def list_scan (rows : List Rid) : ExecutorMethods (List Rid) where
  fresh := fun _ => rows
  beginTuple := fun s => .ok s
  is_end := fun s => .ok s.isEmpty
  rid := fun s =>
    match s with
    | [] => .error (.InternalError "rid past the end")
    | r :: _ => .ok r
  nextTuple := fun s => .ok s.tail

/-- A scan over a fixed list of row identifiers whose predicate evaluation fails when it
advances past a row of page `bad`. -/
def faulty_scan (rows : List Rid) (bad : Int) : ExecutorMethods (List Rid) where
  fresh := fun _ => rows
  beginTuple := fun s => .ok s
  is_end := fun s => .ok s.isEmpty
  rid := fun s =>
    match s with
    | [] => .error (.InternalError "rid past the end")
    | r :: _ => .ok r
  nextTuple := fun s =>
    match s with
    | [] => .ok []
    | r :: rest => if r.page_no = bad then .error (.other "predicate evaluation") else .ok rest

/-- The predicate `a = 1` on table `t`. -/
def cond_a_eq_1 : Condition :=
  ⟨⟨"t", "a"⟩, .OP_EQ, true, ⟨"", ""⟩, .int_val 1⟩

/-- The plan of `SELECT * FROM t WHERE a = 1` with a full scan. -/
def select_plan : Plan :=
  .DMLPlan .T_select
    (.ProjectionPlan (.T_Other 0) (.ScanPlan .T_SeqScan "t" [cond_a_eq_1] []) [⟨"t", "a"⟩])
    "" [] [] []

/-- The plan of `DELETE FROM t WHERE a = 1` with a full scan. -/
def delete_plan : Plan :=
  .DMLPlan .T_Delete (.ScanPlan .T_SeqScan "t" [cond_a_eq_1] []) "t" [] [cond_a_eq_1] []

/-- A Mutation of kind Select whose subplan is a Scan, not a Projection. -/
def select_without_projection : Plan :=
  .DMLPlan .T_select (.ScanPlan .T_SeqScan "t" [cond_a_eq_1] []) "" [] [] []

/-- A join of two full scans under a sort. -/
def sort_join_plan : Plan :=
  .SortPlan (.T_Other 1)
    (.JoinPlan (.T_Other 2) (.ScanPlan .T_SeqScan "x" [] []) (.ScanPlan (.T_Other 3) "y" [] ["b"])
      [cond_a_eq_1])
    ⟨"x", "a"⟩ false

/-- Three row identifiers of table `t`. -/
def three_rows : List Rid := [⟨1, 0⟩, ⟨1, 1⟩, ⟨2, 0⟩]

/-- The portal of the examples. -/
def portal0 : Portal := ⟨⟨0⟩⟩

/-- The context of the examples. -/
def context0 : Context := ⟨0⟩

/-- A parsed statement of one of the seven control and introspection kinds. -/
def TreeNode.is_utility : TreeNode → Bool
  | .Help => true
  | .ShowTables => true
  | .DescTable _ => true
  | .TxnBegin => true
  | .TxnAbort => true
  | .TxnCommit => true
  | .TxnRollback => true
  | _ => false

/-- A planner that plans a DELETE as `delete_plan` and rejects everything else. -/
def planner0 : Planner where
  do_planner := fun query _ =>
    match query.parse with
    | .DeleteStmt _ _ => .ok delete_plan
    | _ => .error (.InternalError "Unexpected AST root")

/-- The analysed statement `delete from t where a = 1;`. -/
def delete_query : Query :=
  ⟨.DeleteStmt "t" [cond_a_eq_1], [cond_a_eq_1], [], ["t"], [], []⟩

/-! ## Program state around a statement -/

/-- Modelled from the spec: the record and storage headers are not among the sources. A
stored row: its physical identifier and its column values by column name. -/
structure Row where
  rid : Rid
  values : List (String × Value)
  deriving DecidableEq, Repr

/-- Modelled from the spec: the contents of the tables, by table name, each table in
storage order. -/
structure Database where
  tables : List (String × List Row)
  deriving DecidableEq, Repr

/-- The rows of a table; a table that does not exist has none. -/
def Database.rows (db : Database) (tab : String) : List Row :=
  match db.tables.lookup tab with
  | some rows => rows
  | none => []

/-- The state a statement lives in: the portal, the compiled statement its caller holds
(`none` while there is none) and the contents of the tables. -/
structure World where
  portal : Portal
  stmt : Option PortalStmt
  tables : Database
  deriving DecidableEq, Repr

/-- The call `portal.start(plan, context)` in a state: the operators read the tables of
the state through `scans`, every call the method makes to a collaborator acts on the
tables as `effect` says, in program order, and the caller keeps the statement
returned. -/
def World.start {σ : Type} (w : World) (scans : Database → ExecutorMethods σ)
    (effect : Event → Database → Database) (fuel : Nat) (plan : Plan) (context : Context) :
    World :=
  let e := w.portal.start (scans w.tables) fuel plan context
  { portal := w.portal
    stmt :=
      match e.value with
      | .returns stmt => some stmt
      | _ => none
    tables := e.trace.foldl (fun db ev => effect ev db) w.tables }

/-- The call `portal.drop()` in a state: the method has no parameter and an empty body,
so the statement and the tables are out of its reach. -/
def World.drop (w : World) : World :=
  { w with portal := w.portal.drop }

/-! ## Vocabulary of the specification, continued -/

/-- The shape of an operator tree: the operator kind at every tree position, the
arguments of the constructors forgotten. -/
inductive Shape
  | nullptr
  | Projection (prev : Shape)
  | SeqScan
  | IndexScan
  | NestedLoopJoin (left : Shape) (right : Shape)
  | Sort (prev : Shape)
  | Update
  | Delete
  | Insert
  deriving DecidableEq, Repr

/-- The shape of an operator tree. -/
def AbstractExecutor.shape : AbstractExecutor → Shape
  | .nullptr => .nullptr
  | .ProjectionExecutor prev _ => .Projection prev.shape
  | .SeqScanExecutor _ _ _ _ => .SeqScan
  | .IndexScanExecutor _ _ _ _ _ => .IndexScan
  | .NestedLoopJoinExecutor left right _ => .NestedLoopJoin left.shape right.shape
  | .SortExecutor prev _ _ => .Sort prev.shape
  | .UpdateExecutor _ _ _ _ _ _ => .Update
  | .DeleteExecutor _ _ _ _ _ => .Delete
  | .InsertExecutor _ _ _ _ => .Insert

/-- The shape of the operator tree a plan lowers to. -/
def Plan.operator_shape : Plan → Shape
  | .ProjectionPlan _ subplan_ _ => .Projection subplan_.operator_shape
  | .ScanPlan tag _ _ _ => if tag = PlanTag.T_SeqScan then .SeqScan else .IndexScan
  | .JoinPlan _ left_ right_ _ => .NestedLoopJoin left_.operator_shape right_.operator_shape
  | .SortPlan _ subplan_ _ _ => .Sort subplan_.operator_shape
  | _ => .nullptr

/-- Whether a Join is among the nodes of a plan that `convert_plan_executor` lowers. -/
def Plan.has_join : Plan → Bool
  | .ProjectionPlan _ subplan_ _ => subplan_.has_join
  | .JoinPlan _ _ _ _ => true
  | .SortPlan _ subplan_ _ _ => subplan_.has_join
  | _ => false

/-- Whether a plan is an Update or Delete whose snapshot is taken over a Join. -/
def Plan.snapshot_over_join : Plan → Bool
  | .DMLPlan .T_Update subplan_ _ _ _ _ => subplan_.has_join
  | .DMLPlan .T_Delete subplan_ _ _ _ _ => subplan_.has_join
  | _ => false

/-- The row identifiers an operator retains. -/
def AbstractExecutor.retained_rids : AbstractExecutor → List Rid
  | .UpdateExecutor _ _ _ _ rids _ => rids
  | .DeleteExecutor _ _ _ rids _ => rids
  | _ => []

/-- A parsed statement of one of the four schema-change kinds. -/
def TreeNode.is_ddl : TreeNode → Bool
  | .CreateTable _ _ => true
  | .DropTable _ => true
  | .CreateIndex _ _ => true
  | .DropIndex _ _ => true
  | _ => false

/-- A parsed statement of one of the four data-manipulation kinds. -/
def TreeNode.is_dml : TreeNode → Bool
  | .SelectStmt _ _ _ => true
  | .InsertStmt _ _ => true
  | .UpdateStmt _ _ _ => true
  | .DeleteStmt _ _ => true
  | _ => false

/-- The shape the spec (sections 4.1, 4.2 and 6) assigns to a statement kind of the
enumerated grammar; `none` for a kind outside it. The payload of the statement plays no
part. -/
def kind_shape : TreeNode → Option portalTag
  | .Help => some .PORTAL_CMD_UTILITY
  | .ShowTables => some .PORTAL_CMD_UTILITY
  | .DescTable _ => some .PORTAL_CMD_UTILITY
  | .TxnBegin => some .PORTAL_CMD_UTILITY
  | .TxnAbort => some .PORTAL_CMD_UTILITY
  | .TxnCommit => some .PORTAL_CMD_UTILITY
  | .TxnRollback => some .PORTAL_CMD_UTILITY
  | .CreateTable _ _ => some .PORTAL_MULTI_QUERY
  | .DropTable _ => some .PORTAL_MULTI_QUERY
  | .CreateIndex _ _ => some .PORTAL_MULTI_QUERY
  | .DropIndex _ _ => some .PORTAL_MULTI_QUERY
  | .SelectStmt _ _ _ => some .PORTAL_ONE_SELECT
  | .InsertStmt _ _ => some .PORTAL_DML_WITHOUT_SELECT
  | .UpdateStmt _ _ _ => some .PORTAL_DML_WITHOUT_SELECT
  | .DeleteStmt _ _ => some .PORTAL_DML_WITHOUT_SELECT
  | _ => none

/-- A planner that returns a SchemaChange plan for the schema-change kinds and a Mutation
plan of the matching kind for the data-manipulation kinds. -/
def Planner.plans_by_kind (planner : Planner) : Prop :=
  ∀ (query : Query) (context : Context),
    match query.parse with
    | .CreateTable _ _ | .DropTable _ | .CreateIndex _ _ | .DropIndex _ _ =>
        ∃ tag name cols, planner.do_planner query context = .ok (.DDLPlan tag name cols)
    | .SelectStmt _ _ _ =>
        ∃ sub tab vals conds sets,
          planner.do_planner query context = .ok (.DMLPlan .T_select sub tab vals conds sets)
    | .InsertStmt _ _ =>
        ∃ sub tab vals conds sets,
          planner.do_planner query context = .ok (.DMLPlan .T_Insert sub tab vals conds sets)
    | .UpdateStmt _ _ _ =>
        ∃ sub tab vals conds sets,
          planner.do_planner query context = .ok (.DMLPlan .T_Update sub tab vals conds sets)
    | .DeleteStmt _ _ =>
        ∃ sub tab vals conds sets,
          planner.do_planner query context = .ok (.DMLPlan .T_Delete sub tab vals conds sets)
    | _ => True

/-- Modelled from the spec: `optimizer/planner.h` and its implementation are not among
the sources. `Planner::do_planner` as sections 4.1 and 7 word it: a fully-formed plan for
each of the eight schema-change and data-manipulation kinds (`plan_for` is the planner's
choice of plan), and a fatal internal defect for a statement kind outside the known
set. -/
def spec_planner (plan_for : Query → Context → Plan) : Planner where
  do_planner := fun query context =>
    if query.parse.is_ddl || query.parse.is_dml then .ok (plan_for query context)
    else .error (.InternalError "statement kind outside the known set")

/-- Modelled from the spec: the headers of the scan operators are not among the sources.
A scan operator as sections 3 and 4.2 word it: it reads the rows of its table that
satisfy its predicate (`holds`, the evaluation of a predicate on a row, is the storage
layer's), one position per such row, in storage order, against the table contents it is
constructed over; the row identifier at a position is the one of the row there. An
operator that is no scan exposes no position. -/
def table_scan (holds : List Condition → Row → Bool) (db : Database) :
    ExecutorMethods (List Row) where
  fresh := fun e =>
    match e with
    | .SeqScanExecutor _ tab_name conds _ => (db.rows tab_name).filter (holds conds)
    | .IndexScanExecutor _ tab_name conds _ _ => (db.rows tab_name).filter (holds conds)
    | _ => []
  beginTuple := fun s => .ok s
  is_end := fun s => .ok s.isEmpty
  rid := fun s =>
    match s with
    | [] => .error (.InternalError "rid past the end")
    | row :: _ => .ok row.rid
  nextTuple := fun s => .ok s.tail

/-! ## Example collaborators and plans, continued -/

/-- Evaluation of a predicate whose atoms compare a column with a literal for equality;
an atom of another form does not hold. -/
def holds_eq_literal (conds : List Condition) (row : Row) : Bool :=
  conds.all fun c =>
    c.is_rhs_val && decide (c.op = CompOp.OP_EQ) &&
      decide (row.values.lookup c.lhs_col.col_name = some c.rhs_val)

/-- A table `t` of four rows, three of them with `a = 1`. -/
def db_t : Database :=
  ⟨[("t", [⟨⟨1, 0⟩, [("a", .int_val 1)]⟩, ⟨⟨1, 1⟩, [("a", .int_val 2)]⟩,
      ⟨⟨1, 2⟩, [("a", .int_val 1)]⟩, ⟨⟨2, 0⟩, [("a", .int_val 1)]⟩])]⟩

/-- A Delete on `t` with predicate `a = 1` whose Scan carries no predicate. -/
def delete_plan_unfiltered_scan : Plan :=
  .DMLPlan .T_Delete (.ScanPlan .T_SeqScan "t" [] []) "t" [] [cond_a_eq_1] []

/-- The plan of `UPDATE t SET a = 2 WHERE a = 1` with a full scan. -/
def update_plan : Plan :=
  .DMLPlan .T_Update (.ScanPlan .T_SeqScan "t" [cond_a_eq_1] []) "t" [] [cond_a_eq_1]
    [⟨⟨"t", "a"⟩, .int_val 2⟩]

/-- The plan of `INSERT INTO t VALUES (5)`. -/
def insert_plan : Plan :=
  .DMLPlan .T_Insert .nullptr "t" [.int_val 5] [] []

/-- A planner with one plan per schema-change and data-manipulation kind, which rejects
every other kind. -/
def planner1 : Planner where
  do_planner := fun query _ =>
    match query.parse with
    | .CreateTable tab_name fields => .ok (.DDLPlan (.T_Other 4) tab_name fields)
    | .DropTable tab_name => .ok (.DDLPlan (.T_Other 5) tab_name [])
    | .CreateIndex tab_name col_names => .ok (.DDLPlan (.T_Other 6) tab_name col_names)
    | .DropIndex tab_name col_names => .ok (.DDLPlan (.T_Other 7) tab_name col_names)
    | .SelectStmt _ _ _ => .ok select_plan
    | .InsertStmt _ _ => .ok insert_plan
    | .UpdateStmt _ _ _ => .ok update_plan
    | .DeleteStmt _ _ => .ok delete_plan
    | _ => .error (.InternalError "Unexpected AST root")

/-- The analysed statement `update t set a = 2 where a = 1;`. -/
def update_query : Query :=
  ⟨.UpdateStmt "t" [⟨⟨"t", "a"⟩, .int_val 2⟩] [cond_a_eq_1], [cond_a_eq_1], [], ["t"],
    [⟨⟨"t", "a"⟩, .int_val 2⟩], []⟩

/-- An analysed statement whose root is no statement class. -/
def unknown_query : Query :=
  ⟨.other 0, [], [], [], [], []⟩

/-- The plan of a SELECT over a sorted join of two scans. -/
def select_join_plan : Plan :=
  .DMLPlan .T_select (.ProjectionPlan (.T_Other 0) sort_join_plan [⟨"x", "a"⟩]) "" [] [] []

/-- The plan of a Delete on `x` whose snapshot is taken over a join of `x` and `y`. -/
def delete_over_join_plan : Plan :=
  .DMLPlan .T_Delete
    (.JoinPlan (.T_Other 2) (.ScanPlan .T_SeqScan "x" [] []) (.ScanPlan .T_SeqScan "y" [] [])
      [cond_a_eq_1])
    "x" [] [cond_a_eq_1] []

/-- A storage in which advancing past a row of page 2 fails. A join with a predicate
visits the one row of page 1 that satisfies it; a join without a predicate visits every
row, the one of page 2 included. -/
def faulty_join_scan : ExecutorMethods (List Rid) where
  fresh := fun e =>
    match e with
    | .NestedLoopJoinExecutor _ _ [] => [⟨1, 0⟩, ⟨2, 0⟩]
    | .NestedLoopJoinExecutor _ _ _ => [⟨1, 0⟩]
    | _ => []
  beginTuple := (faulty_scan [] 2).beginTuple
  is_end := (faulty_scan [] 2).is_end
  rid := (faulty_scan [] 2).rid
  nextTuple := (faulty_scan [] 2).nextTuple

/-- A state with the table `t` and no compiled statement. -/
def world0 : World := ⟨portal0, none, db_t⟩

/-! ## Lemmas on lowering -/

theorem convert_value_eq_spec_lowering (self : Portal) (context : Context) (p : Plan) :
    (self.convert_plan_executor p context).value
      = spec_lowering self.sm_manager_ context p := by
  induction p with
  | ScanPlan tag tab conds idx =>
      cases tag <;> simp [Portal.convert_plan_executor, spec_lowering]
  | _ => simp [Portal.convert_plan_executor, spec_lowering, *]

theorem convert_value_nodes (self : Portal) (context : Context) (p : Plan)
    (h : p.structural = true) :
    (self.convert_plan_executor p context).value.nodes = p.nodes := by
  induction p with
  | ScanPlan tag tab conds idx =>
      by_cases ht : tag = PlanTag.T_SeqScan <;>
        simp [Portal.convert_plan_executor, AbstractExecutor.nodes, Plan.nodes, ht]
  | ProjectionPlan tag sub cols ih =>
      simp [Plan.structural] at h
      simp [Portal.convert_plan_executor, AbstractExecutor.nodes, Plan.nodes, ih h]
  | SortPlan tag sub col desc ih =>
      simp [Plan.structural] at h
      simp [Portal.convert_plan_executor, AbstractExecutor.nodes, Plan.nodes, ih h]
  | JoinPlan tag l r conds ihl ihr =>
      simp [Plan.structural] at h
      simp [Portal.convert_plan_executor, AbstractExecutor.nodes, Plan.nodes, ihl h.1, ihr h.2]
  | _ => simp [Plan.structural] at h

theorem convert_trace_length (self : Portal) (context : Context) (p : Plan)
    (h : p.structural = true) :
    (self.convert_plan_executor p context).trace.length = p.nodes := by
  induction p with
  | ScanPlan tag tab conds idx =>
      by_cases ht : tag = PlanTag.T_SeqScan <;>
        simp [Portal.convert_plan_executor, Plan.nodes, ht]
  | ProjectionPlan tag sub cols ih =>
      simp [Plan.structural] at h
      simp [Portal.convert_plan_executor, Plan.nodes, ih h]
  | SortPlan tag sub col desc ih =>
      simp [Plan.structural] at h
      simp [Portal.convert_plan_executor, Plan.nodes, ih h]
  | JoinPlan tag l r conds ihl ihr =>
      simp [Plan.structural] at h
      simp [Portal.convert_plan_executor, Plan.nodes, ihl h.1, ihr h.2]
      omega
  | _ => simp [Plan.structural] at h

theorem convert_trace_makes_no_mutation (self : Portal) (context : Context) (p : Plan) :
    ∀ x, Event.make x ∈ (self.convert_plan_executor p context).trace →
      x.is_mutation = false := by
  induction p with
  | ScanPlan tag tab conds idx =>
      intro x hx
      by_cases ht : tag = PlanTag.T_SeqScan <;>
        simp [Portal.convert_plan_executor, ht] at hx <;>
        simp [hx, AbstractExecutor.is_mutation]
  | ProjectionPlan tag sub cols ih =>
      intro x hx
      simp [Portal.convert_plan_executor] at hx
      rcases hx with hx | hx
      · exact ih x hx
      · simp [hx, AbstractExecutor.is_mutation]
  | SortPlan tag sub col desc ih =>
      intro x hx
      simp [Portal.convert_plan_executor] at hx
      rcases hx with hx | hx
      · exact ih x hx
      · simp [hx, AbstractExecutor.is_mutation]
  | JoinPlan tag l r conds ihl ihr =>
      intro x hx
      simp [Portal.convert_plan_executor] at hx
      rcases hx with hx | hx | hx
      · exact ihl x hx
      · exact ihr x hx
      · simp [hx, AbstractExecutor.is_mutation]
  | _ => intro x hx; simp [Portal.convert_plan_executor] at hx

theorem convert_plan_without_join_conds (self : Portal) (context : Context) (p : Plan) :
    (self.convert_plan_executor p context).plan.without_join_conds
      = p.without_join_conds := by
  induction p with
  | ScanPlan tag tab conds idx =>
      by_cases ht : tag = PlanTag.T_SeqScan <;>
        simp [Portal.convert_plan_executor, ht]
  | _ => simp [Portal.convert_plan_executor, Plan.without_join_conds, *]

/-! ## Lemmas on the snapshot loop -/

theorem for_loop_trace_has_no_make {σ : Type} (m : ExecutorMethods σ) :
    ∀ (fuel : Nat) (s : σ) (acc : List Rid) (x : AbstractExecutor),
      Event.make x ∉ (for_loop m fuel s acc).2 := by
  intro fuel
  induction fuel with
  | zero => intro s acc x; simp [for_loop]
  | succ k ih =>
      intro s acc x
      simp only [for_loop]
      split
      · simp
      · simp
      · split
        · simp
        · split
          · simp
          · simpa using ih _ _ x

theorem for_loop_of_observes {σ : Type} (m : ExecutorMethods σ) :
    ∀ (rids : List Rid) (s : σ), Observes m s rids →
      ∀ (fuel : Nat) (acc : List Rid), rids.length < fuel →
        for_loop m fuel s acc = (.returns (acc ++ rids), loop_events rids.length) := by
  intro rids
  induction rids with
  | nil =>
      intro s h fuel acc hf
      cases fuel with
      | zero => simp at hf
      | succ k =>
          simp only [Observes] at h
          simp [for_loop, h, loop_events]
  | cons r rest ih =>
      intro s h fuel acc hf
      cases fuel with
      | zero => simp at hf
      | succ k =>
          simp only [Observes] at h
          obtain ⟨h1, h2, s2, h3, h4⟩ := h
          have hk : rest.length < k := by simpa using hf
          simp [for_loop, h1, h2, h3, ih s2 h4 k (acc ++ [r]) hk, loop_events]

theorem for_loop_of_failsAfter {σ : Type} (m : ExecutorMethods σ) :
    ∀ (n : Nat) (s : σ) (e : Exception), FailsAfter m n s e →
      ∀ (fuel : Nat) (acc : List Rid), n < fuel →
        (for_loop m fuel s acc).1 = .throws e := by
  intro n
  induction n with
  | zero =>
      intro s e h fuel acc hf
      cases fuel with
      | zero => simp at hf
      | succ k =>
          simp only [FailsAfter] at h
          rcases h with h | ⟨h1, h | ⟨⟨r, h2⟩, h3⟩⟩
          · simp [for_loop, h]
          · simp [for_loop, h1, h]
          · simp [for_loop, h1, h2, h3]
  | succ j ih =>
      intro s e h fuel acc hf
      cases fuel with
      | zero => simp at hf
      | succ k =>
          simp only [FailsAfter] at h
          obtain ⟨h1, ⟨r, h2⟩, s2, h3, h4⟩ := h
          have hk : j < k := by omega
          simp [for_loop, h1, h2, h3, ih s2 e h4 k (acc ++ [r]) hk]

/-! ## Lemmas on `start` -/

theorem convert_plan_of_scan (self : Portal) (context : Context) (tag : PlanTag)
    (tab : String) (conds : List Condition) (idx : List String) :
    (self.convert_plan_executor (.ScanPlan tag tab conds idx) context).plan
      = .ScanPlan tag tab conds idx := by
  by_cases ht : tag = PlanTag.T_SeqScan <;> simp [Portal.convert_plan_executor, ht]

theorem collect_rids_trace_has_no_make {σ : Type} (m : ExecutorMethods σ) (fuel : Nat)
    (scan : AbstractExecutor) (x : AbstractExecutor) :
    Event.make x ∉ (collect_rids m fuel scan).2 := by
  have h := for_loop_trace_has_no_make m fuel
  cases scan <;> simp only [collect_rids] <;> (try simp) <;> split <;> simp [h]

theorem mutation_plan_frame (self : Portal) (context : Context) (tag : PlanTag) (sub : Plan)
    (tab : String) (vals : List Value) (conds : List Condition) (sets : List SetClause)
    (htag : tag ≠ PlanTag.T_select) :
    (Plan.DMLPlan tag (self.convert_plan_executor sub context).plan tab vals conds
        sets).without_select_cols.without_join_conds
      = (Plan.DMLPlan tag sub tab vals conds sets).without_select_cols.without_join_conds := by
  have h1 : ∀ q : Plan, (Plan.DMLPlan tag q tab vals conds sets).without_select_cols
      = Plan.DMLPlan tag q tab vals conds sets := by
    intro q
    cases tag <;> first | exact absurd rfl htag | rfl
  rw [h1, h1]
  simp [Plan.without_join_conds, convert_plan_without_join_conds]

theorem start_plan_frame {σ : Type} (self : Portal) (m : ExecutorMethods σ) (fuel : Nat)
    (plan : Plan) (context : Context) :
    (self.start m fuel plan context).plan.without_select_cols.without_join_conds
      = plan.without_select_cols.without_join_conds := by
  cases plan with
  | DMLPlan tag sub tab vals conds sets =>
      cases tag with
      | T_select =>
          cases sub <;>
            simp [Portal.start, dynamic_pointer_cast_ProjectionPlan, move_sel_cols_,
              Portal.convert_plan_executor, Plan.without_select_cols, Plan.without_join_conds,
              convert_plan_without_join_conds]
      | T_Update =>
          simp only [Portal.start]
          split <;> exact mutation_plan_frame self context _ sub tab vals conds sets (by decide)
      | T_Delete =>
          simp only [Portal.start]
          split <;> exact mutation_plan_frame self context _ sub tab vals conds sets (by decide)
      | _ => simp [Portal.start]
  | _ => simp [Portal.start]

/-! ## Claims -/

/-- C1 (as stated, refuted): a Mutation plan of kind Delete is listed in the dispatch
table, yet `start` returns no compiled statement for it when the scan it drives fails;
it throws the scan's exception. -/
theorem C1_counterexample :
    dispatch_table delete_plan = some portalTag.PORTAL_DML_WITHOUT_SELECT ∧
    (portal0.start (faulty_scan three_rows 2) 10 delete_plan context0).value
      = Outcome.throws (Exception.other "predicate evaluation") := by
  decide

/-- C1 (amended): for every plan listed in the dispatch table, provided a Select's
subplan is a Projection and the snapshot loop of an Update or Delete runs to its end
without failure, `start` returns a compiled statement whose tag is the one of the
table; Utility and SchemaChange give no operator root and no output columns and leave
the plan as it was, Update, Delete and Insert give a root that is present; the
statement's `plan` is the input plan object, equal to the input up to the fields moved
out of it. -/
theorem C1_start_follows_dispatch_table {σ : Type} (self : Portal) (m : ExecutorMethods σ)
    (fuel : Nat) (plan : Plan) (context : Context) (tag : portalTag)
    (hshape : dispatch_table plan = some tag)
    (hselect : ∀ sub tab vals conds sets, plan = .DMLPlan .T_select sub tab vals conds sets →
      ∃ ptag child cols, sub = .ProjectionPlan ptag child cols)
    (hsnapshot : ∀ t sub tab vals conds sets, plan = .DMLPlan t sub tab vals conds sets →
      t = .T_Update ∨ t = .T_Delete →
      ∃ rids, (collect_rids m fuel (self.convert_plan_executor sub context).value).1
        = .returns rids) :
    ∃ stmt, (self.start m fuel plan context).value = .returns stmt ∧
      stmt.tag = tag ∧
      stmt.plan = (self.start m fuel plan context).plan ∧
      stmt.plan.without_select_cols.without_join_conds
        = plan.without_select_cols.without_join_conds ∧
      (tag = .PORTAL_CMD_UTILITY ∨ tag = .PORTAL_MULTI_QUERY →
        stmt.root = .nullptr ∧ stmt.sel_cols = [] ∧ stmt.plan = plan) ∧
      (tag = .PORTAL_DML_WITHOUT_SELECT → stmt.root ≠ .nullptr) := by
  have hframe := start_plan_frame self m fuel plan context
  cases plan with
  | OtherPlan t n =>
      simp only [dispatch_table, Option.some.injEq] at hshape
      subst hshape
      exact ⟨_, rfl, rfl, rfl, rfl, by simp, by simp⟩
  | DDLPlan t n c =>
      simp only [dispatch_table, Option.some.injEq] at hshape
      subst hshape
      exact ⟨_, rfl, rfl, rfl, rfl, by simp, by simp⟩
  | DMLPlan t sub tab vals conds sets =>
      cases t with
      | T_select =>
          simp only [dispatch_table, Option.some.injEq] at hshape
          subst hshape
          obtain ⟨ptag, child, cols, rfl⟩ := hselect sub tab vals conds sets rfl
          refine ⟨_, rfl, rfl, rfl, ?_, by simp, by simp⟩
          exact hframe
      | T_Update =>
          simp only [dispatch_table, Option.some.injEq] at hshape
          subst hshape
          obtain ⟨rids, hr⟩ := hsnapshot _ sub tab vals conds sets rfl (Or.inl rfl)
          simp only [Portal.start, hr] at hframe ⊢
          exact ⟨_, rfl, rfl, rfl, hframe, by simp, by simp⟩
      | T_Delete =>
          simp only [dispatch_table, Option.some.injEq] at hshape
          subst hshape
          obtain ⟨rids, hr⟩ := hsnapshot _ sub tab vals conds sets rfl (Or.inr rfl)
          simp only [Portal.start, hr] at hframe ⊢
          exact ⟨_, rfl, rfl, rfl, hframe, by simp, by simp⟩
      | T_Insert =>
          simp only [dispatch_table, Option.some.injEq] at hshape
          subst hshape
          exact ⟨_, rfl, rfl, rfl, rfl, by simp, by simp⟩
      | _ => simp [dispatch_table] at hshape
  | _ => simp [dispatch_table] at hshape

/-- Witness of C1: the plan of `DELETE FROM t WHERE a = 1` over a scan of three rows
compiles to a statement of shape `PORTAL_DML_WITHOUT_SELECT` with a root. -/
theorem C1_start_follows_dispatch_table_witness :
    dispatch_table delete_plan = some portalTag.PORTAL_DML_WITHOUT_SELECT ∧
    ∃ stmt, (portal0.start (list_scan three_rows) 10 delete_plan context0).value
        = .returns stmt ∧
      stmt.tag = .PORTAL_DML_WITHOUT_SELECT ∧
      stmt.plan = (portal0.start (list_scan three_rows) 10 delete_plan context0).plan ∧
      stmt.plan.without_select_cols.without_join_conds
        = delete_plan.without_select_cols.without_join_conds ∧
      (portalTag.PORTAL_DML_WITHOUT_SELECT = .PORTAL_CMD_UTILITY ∨
          portalTag.PORTAL_DML_WITHOUT_SELECT = .PORTAL_MULTI_QUERY →
        stmt.root = .nullptr ∧ stmt.sel_cols = [] ∧ stmt.plan = delete_plan) ∧
      (portalTag.PORTAL_DML_WITHOUT_SELECT = .PORTAL_DML_WITHOUT_SELECT →
        stmt.root ≠ .nullptr) :=
  ⟨by decide,
    C1_start_follows_dispatch_table portal0 (list_scan three_rows) 10 delete_plan context0
      .PORTAL_DML_WITHOUT_SELECT (by decide)
      (by intro sub tab vals conds sets h; simp [delete_plan] at h)
      (by
        intro t sub tab vals conds sets h _
        simp only [delete_plan, Plan.DMLPlan.injEq] at h
        obtain ⟨-, rfl, -⟩ := h
        exact ⟨three_rows, by decide⟩)⟩

/-- C2: for a Mutation plan of kind Update or Delete whose lowered subplan is an operator,
if `beginTuple` succeeds and the scan, advanced until `is_end` holds, shows the row
identifiers `rids` (one per visited position), then with enough fuel `start` returns the
statement whose root is the `UpdateExecutor` (`DeleteExecutor`) built from the plan's
table name, its set-clauses (Update only), its predicate and exactly `rids`, in order;
the calls made are `beginTuple`, then `is_end`, `rid`, `nextTuple` per position and a
last `is_end`, before the one construction; the root owns no child operator. -/
theorem C2_snapshot_seeds_the_mutation_operator {σ : Type} (self : Portal)
    (m : ExecutorMethods σ) (fuel : Nat) (sub : Plan) (tab : String) (vals : List Value)
    (conds : List Condition) (sets : List SetClause) (context : Context) (s0 : σ)
    (rids : List Rid)
    (hscan : (self.convert_plan_executor sub context).value ≠ .nullptr)
    (hbegin : m.beginTuple (m.fresh (self.convert_plan_executor sub context).value) = .ok s0)
    (hobs : Observes m s0 rids)
    (hfuel : rids.length < fuel) :
    (self.start m fuel (.DMLPlan .T_Update sub tab vals conds sets) context).value
        = .returns ⟨.PORTAL_DML_WITHOUT_SELECT, [],
            .UpdateExecutor self.sm_manager_ tab sets conds rids context,
            .DMLPlan .T_Update (self.convert_plan_executor sub context).plan tab vals conds
              sets⟩ ∧
    (self.start m fuel (.DMLPlan .T_Delete sub tab vals conds sets) context).value
        = .returns ⟨.PORTAL_DML_WITHOUT_SELECT, [],
            .DeleteExecutor self.sm_manager_ tab conds rids context,
            .DMLPlan .T_Delete (self.convert_plan_executor sub context).plan tab vals conds
              sets⟩ ∧
    (self.start m fuel (.DMLPlan .T_Update sub tab vals conds sets) context).trace
        = (self.convert_plan_executor sub context).trace ++
            ([.beginTuple] ++ loop_events rids.length) ++
            [.make (.UpdateExecutor self.sm_manager_ tab sets conds rids context)] ∧
    (self.start m fuel (.DMLPlan .T_Delete sub tab vals conds sets) context).trace
        = (self.convert_plan_executor sub context).trace ++
            ([.beginTuple] ++ loop_events rids.length) ++
            [.make (.DeleteExecutor self.sm_manager_ tab conds rids context)] ∧
    (AbstractExecutor.UpdateExecutor self.sm_manager_ tab sets conds rids context).children
        = [] ∧
    (AbstractExecutor.DeleteExecutor self.sm_manager_ tab conds rids context).children
        = [] := by
  have hloop := for_loop_of_observes m rids s0 hobs fuel [] hfuel
  have hsnap : collect_rids m fuel (self.convert_plan_executor sub context).value
      = (.returns rids, [.beginTuple] ++ loop_events rids.length) := by
    cases hv : (self.convert_plan_executor sub context).value with
    | nullptr => exact absurd hv hscan
    | _ =>
        rw [hv] at hbegin
        simp [collect_rids, hbegin, hloop]
  simp [Portal.start, hsnap, AbstractExecutor.children]

/-- Witness of C2: the scan of three rows hands exactly these three row identifiers to
the operator built for `DELETE FROM t WHERE a = 1`. -/
theorem C2_snapshot_seeds_the_mutation_operator_witness :
    Observes (list_scan three_rows) three_rows three_rows ∧
    (portal0.start (list_scan three_rows) 4 delete_plan context0).value
      = .returns ⟨.PORTAL_DML_WITHOUT_SELECT, [],
          .DeleteExecutor portal0.sm_manager_ "t" [cond_a_eq_1] three_rows context0,
          delete_plan⟩ :=
  have hobs : Observes (list_scan three_rows) three_rows three_rows := by
    simp [Observes, list_scan, three_rows]
  ⟨hobs,
    (C2_snapshot_seeds_the_mutation_operator portal0 (list_scan three_rows) 4
      (.ScanPlan .T_SeqScan "t" [cond_a_eq_1] []) "t" [] [cond_a_eq_1] [] context0 three_rows
      three_rows (by decide) rfl hobs (by decide)).2.1⟩

/-- C3: for every plan tree built only from Projection, Scan, Join and Sort nodes,
`convert_plan_executor` returns the operator tree the spec describes (Projection to
`ProjectionExecutor` over the lowered child with the same columns, Scan to
`SeqScanExecutor` for `T_SeqScan` and to `IndexScanExecutor` otherwise with the same
table and predicate, Join to `NestedLoopJoinExecutor` over the lowered left and right
children with the join predicate, Sort to `SortExecutor` with the same key and
direction); the operator tree has as many nodes as the plan tree, and exactly that many
operators are constructed. -/
theorem C3_lowering_is_one_to_one (self : Portal) (p : Plan) (context : Context)
    (h : p.structural = true) :
    (self.convert_plan_executor p context).value
        = spec_lowering self.sm_manager_ context p ∧
    (self.convert_plan_executor p context).value.nodes = p.nodes ∧
    (self.convert_plan_executor p context).trace.length = p.nodes :=
  ⟨convert_value_eq_spec_lowering self context p, convert_value_nodes self context p h,
    convert_trace_length self context p h⟩

/-- Witness of C3: a sort over a join of a full scan and an index scan lowers to four
operators of the same shape. -/
theorem C3_lowering_is_one_to_one_witness :
    sort_join_plan.structural = true ∧
    (portal0.convert_plan_executor sort_join_plan context0).value
        = .SortExecutor
            (.NestedLoopJoinExecutor (.SeqScanExecutor ⟨0⟩ "x" [] context0)
              (.IndexScanExecutor ⟨0⟩ "y" [] ["b"] context0) [cond_a_eq_1])
            ⟨"x", "a"⟩ false ∧
    (portal0.convert_plan_executor sort_join_plan context0).value.nodes = 4 ∧
    (portal0.convert_plan_executor sort_join_plan context0).trace.length = 4 :=
  ⟨by decide, C3_lowering_is_one_to_one portal0 sort_join_plan context0 (by decide)⟩

/-- C4: `run` makes exactly one call into the `QlManager`, chosen by the tag:
`select_from(root, sel_cols, context)` for `PORTAL_ONE_SELECT`, `run_dml(root)` for
`PORTAL_DML_WITHOUT_SELECT`, `run_mutli_query(plan, context)` for `PORTAL_MULTI_QUERY`,
`run_cmd_utility(plan, txn_id, context)` for `PORTAL_CMD_UTILITY`, and it ends as that
call ends; for `PORTAL_Invalid_Query` it makes no call and throws `InternalError`. -/
theorem C4_run_calls_exactly_one_collaborator (self : Portal) (ql : QlManager)
    (sel_cols : List TabCol) (root : AbstractExecutor) (plan : Plan) (txn_id : txn_id_t)
    (context : Context) :
    ((self.run ⟨.PORTAL_ONE_SELECT, sel_cols, root, plan⟩ ql txn_id context).calls
        = [.select_from root sel_cols context] ∧
      (self.run ⟨.PORTAL_ONE_SELECT, sel_cols, root, plan⟩ ql txn_id context).outcome
        = Outcome.of_call (ql.select_from root sel_cols context)) ∧
    ((self.run ⟨.PORTAL_DML_WITHOUT_SELECT, sel_cols, root, plan⟩ ql txn_id context).calls
        = [.run_dml root] ∧
      (self.run ⟨.PORTAL_DML_WITHOUT_SELECT, sel_cols, root, plan⟩ ql txn_id context).outcome
        = Outcome.of_call (ql.run_dml root)) ∧
    ((self.run ⟨.PORTAL_MULTI_QUERY, sel_cols, root, plan⟩ ql txn_id context).calls
        = [.run_mutli_query plan context] ∧
      (self.run ⟨.PORTAL_MULTI_QUERY, sel_cols, root, plan⟩ ql txn_id context).outcome
        = Outcome.of_call (ql.run_mutli_query plan context)) ∧
    ((self.run ⟨.PORTAL_CMD_UTILITY, sel_cols, root, plan⟩ ql txn_id context).calls
        = [.run_cmd_utility plan txn_id context] ∧
      (self.run ⟨.PORTAL_CMD_UTILITY, sel_cols, root, plan⟩ ql txn_id context).outcome
        = Outcome.of_call (ql.run_cmd_utility plan txn_id context)) ∧
    ((self.run ⟨.PORTAL_Invalid_Query, sel_cols, root, plan⟩ ql txn_id context).calls = [] ∧
      (self.run ⟨.PORTAL_Invalid_Query, sel_cols, root, plan⟩ ql txn_id context).outcome
        = .throws (.InternalError "Unexpected field type")) := by
  simp [Portal.run]

/-- C5: for a parsed statement of kind Help, ShowTables, DescTable, TxnBegin, TxnAbort,
TxnCommit or TxnRollback, `plan_query` returns an `OtherPlan` with the matching tag,
whose name is the statement's table name for DescTable and the empty string otherwise,
and makes no call to the planner. -/
theorem C5_utility_statements_bypass_the_planner (self : Optimizer) (context : Context)
    (tab_name : String) (conds : List Condition) (cols : List TabCol)
    (tables : List String) (set_clauses : List SetClause) (values : List Value) :
    self.plan_query ⟨.Help, conds, cols, tables, set_clauses, values⟩ context
        = ⟨.returns (.OtherPlan .T_Help ""), []⟩ ∧
    self.plan_query ⟨.ShowTables, conds, cols, tables, set_clauses, values⟩ context
        = ⟨.returns (.OtherPlan .T_ShowTable ""), []⟩ ∧
    self.plan_query ⟨.DescTable tab_name, conds, cols, tables, set_clauses, values⟩ context
        = ⟨.returns (.OtherPlan .T_DescTable tab_name), []⟩ ∧
    self.plan_query ⟨.TxnBegin, conds, cols, tables, set_clauses, values⟩ context
        = ⟨.returns (.OtherPlan .T_Transaction_begin ""), []⟩ ∧
    self.plan_query ⟨.TxnAbort, conds, cols, tables, set_clauses, values⟩ context
        = ⟨.returns (.OtherPlan .T_Transaction_abort ""), []⟩ ∧
    self.plan_query ⟨.TxnCommit, conds, cols, tables, set_clauses, values⟩ context
        = ⟨.returns (.OtherPlan .T_Transaction_commit ""), []⟩ ∧
    self.plan_query ⟨.TxnRollback, conds, cols, tables, set_clauses, values⟩ context
        = ⟨.returns (.OtherPlan .T_Transaction_rollback ""), []⟩ := by
  simp [Optimizer.plan_query]

/-- C6: for a parsed statement that is none of the seven utility kinds, `plan_query`
calls `do_planner` once, with the same query and context, returns exactly the plan it
returns and throws exactly the exception it throws. -/
theorem C6_other_statements_delegate_to_the_planner (self : Optimizer) (query : Query)
    (context : Context) (h : query.parse.is_utility = false) :
    (self.plan_query query context).planner_calls = [(query, context)] ∧
    (∀ plan, (self.plan_query query context).value = .returns plan ↔
      self.planner_.do_planner query context = .ok plan) ∧
    (∀ e, (self.plan_query query context).value = .throws e ↔
      self.planner_.do_planner query context = .error e) ∧
    (self.plan_query query context).value ≠ .undefined ∧
    (self.plan_query query context).value ≠ .unfinished := by
  have key : self.plan_query query context
      = match self.planner_.do_planner query context with
        | .ok plan => ⟨.returns plan, [(query, context)]⟩
        | .error e => ⟨.throws e, [(query, context)]⟩ := by
    cases hp : query.parse <;> simp [hp, TreeNode.is_utility] at h <;>
      simp [Optimizer.plan_query, hp]
  rw [key]
  cases self.planner_.do_planner query context <;> simp

/-- Witness of C6: a DELETE is planned by the planner. -/
theorem C6_other_statements_delegate_to_the_planner_witness :
    delete_query.parse.is_utility = false ∧
    ((⟨⟨0⟩, planner0⟩ : Optimizer).plan_query delete_query context0).planner_calls
      = [(delete_query, context0)] ∧
    ((⟨⟨0⟩, planner0⟩ : Optimizer).plan_query delete_query context0).value
      = .returns delete_plan :=
  have h := C6_other_statements_delegate_to_the_planner ⟨⟨0⟩, planner0⟩ delete_query
    context0 (by decide)
  ⟨by decide, h.1, (h.2.1 delete_plan).2 rfl⟩

/-- C7 (the code at the failing inputs): `start` throws `InternalError` for a plan that
is no Utility, SchemaChange or Mutation and for a Mutation of an unlisted kind, but not
for the other unlisted shapes. A Select whose subplan is a Scan ends in a null
dereference; `convert_plan_executor` answers an unlisted node with `nullptr` and no
error, so a Delete over such a node ends in a null dereference as well, and a Select
whose Projection sits on such a node is accepted and compiled. -/
theorem C7_unlisted_shapes_are_not_all_rejected :
    (portal0.start (list_scan three_rows) 10 (.base (.T_Other 0)) context0).value
        = .throws (.InternalError "Unexpected field type") ∧
    (portal0.start (list_scan three_rows) 10 (.DMLPlan .T_Help .nullptr "t" [] [] [])
        context0).value = .throws (.InternalError "Unexpected field type") ∧
    (portal0.start (list_scan three_rows) 10 select_without_projection context0).value
        = .undefined ∧
    (portal0.convert_plan_executor (.OtherPlan .T_Help "") context0).value = .nullptr ∧
    (portal0.start (list_scan three_rows) 10
        (.DMLPlan .T_Delete (.OtherPlan .T_Help "") "t" [] [] []) context0).value
        = .undefined ∧
    (portal0.start (list_scan three_rows) 10
        (.DMLPlan .T_select (.ProjectionPlan (.T_Other 0) (.OtherPlan .T_Help "") []) "" []
          [] []) context0).value
        = .returns ⟨.PORTAL_ONE_SELECT, [], .ProjectionExecutor .nullptr [],
            .DMLPlan .T_select (.ProjectionPlan (.T_Other 0) (.OtherPlan .T_Help "") []) ""
              [] [] []⟩ := by
  decide

/-- C8: for a Mutation plan of kind Update or Delete whose lowered subplan is an
operator, if the snapshot loop fails with `e` (at `beginTuple`, or after `n` positions
at `is_end`, `rid` or `nextTuple`), then with enough fuel `start` throws `e`: it returns
no compiled statement, and no mutation operator is among the operators it constructed. -/
theorem C8_snapshot_failure_aborts_start {σ : Type} (self : Portal) (m : ExecutorMethods σ)
    (fuel n : Nat) (sub : Plan) (tab : String) (vals : List Value) (conds : List Condition)
    (sets : List SetClause) (context : Context) (e : Exception)
    (hscan : (self.convert_plan_executor sub context).value ≠ .nullptr)
    (hfail : m.beginTuple (m.fresh (self.convert_plan_executor sub context).value)
        = .error e ∨
      ∃ s, m.beginTuple (m.fresh (self.convert_plan_executor sub context).value) = .ok s ∧
        FailsAfter m n s e)
    (hfuel : n < fuel) :
    ((self.start m fuel (.DMLPlan .T_Update sub tab vals conds sets) context).value
        = .throws e ∧
      ∀ x, Event.make x ∈
          (self.start m fuel (.DMLPlan .T_Update sub tab vals conds sets) context).trace →
        x.is_mutation = false) ∧
    ((self.start m fuel (.DMLPlan .T_Delete sub tab vals conds sets) context).value
        = .throws e ∧
      ∀ x, Event.make x ∈
          (self.start m fuel (.DMLPlan .T_Delete sub tab vals conds sets) context).trace →
        x.is_mutation = false) := by
  have hsnap : (collect_rids m fuel (self.convert_plan_executor sub context).value).1
      = .throws e := by
    cases hv : (self.convert_plan_executor sub context).value with
    | nullptr => exact absurd hv hscan
    | _ =>
        rw [hv] at hfail
        rcases hfail with hb | ⟨s, hb, hf⟩
        · simp [collect_rids, hb]
        · simp [collect_rids, hb, for_loop_of_failsAfter m n s e hf fuel [] hfuel]
  have hconv := convert_trace_makes_no_mutation self context sub
  have hcoll := collect_rids_trace_has_no_make m fuel
    (self.convert_plan_executor sub context).value
  refine ⟨⟨?_, ?_⟩, ⟨?_, ?_⟩⟩
  · simp [Portal.start, hsnap]
  · intro x hx
    simp only [Portal.start, hsnap, List.mem_append] at hx
    rcases hx with hx | hx
    · exact hconv x hx
    · exact absurd hx (hcoll x)
  · simp [Portal.start, hsnap]
  · intro x hx
    simp only [Portal.start, hsnap, List.mem_append] at hx
    rcases hx with hx | hx
    · exact hconv x hx
    · exact absurd hx (hcoll x)

/-- Witness of C8: a scan of three rows that fails when it advances past the third one
makes the compilation of `DELETE FROM t WHERE a = 1` throw. -/
theorem C8_snapshot_failure_aborts_start_witness :
    FailsAfter (faulty_scan three_rows 2) 2 three_rows (.other "predicate evaluation") ∧
    (portal0.start (faulty_scan three_rows 2) 10 delete_plan context0).value
      = .throws (.other "predicate evaluation") ∧
    ∀ x, Event.make x ∈
        (portal0.start (faulty_scan three_rows 2) 10 delete_plan context0).trace →
      x.is_mutation = false :=
  have hf : FailsAfter (faulty_scan three_rows 2) 2 three_rows
      (.other "predicate evaluation") := by
    simp [FailsAfter, faulty_scan, three_rows]
  ⟨hf,
    (C8_snapshot_failure_aborts_start portal0 (faulty_scan three_rows 2) 10 2
      (.ScanPlan .T_SeqScan "t" [cond_a_eq_1] []) "t" [] [cond_a_eq_1] [] context0
      (.other "predicate evaluation") (by decide) (Or.inr ⟨three_rows, rfl, hf⟩)
      (by decide)).2⟩

/-- C9 (as stated, refuted): after `start` on the plan of `SELECT * FROM t WHERE a = 1`
the Projection of the plan has lost its output columns. -/
theorem C9_counterexample :
    (portal0.start (list_scan three_rows) 10 select_plan context0).plan ≠ select_plan ∧
    (portal0.start (list_scan three_rows) 10 select_plan context0).plan
      = .DMLPlan .T_select
          (.ProjectionPlan (.T_Other 0) (.ScanPlan .T_SeqScan "t" [cond_a_eq_1] []) [])
          "" [] [] [] := by
  decide

/-- C9 (amended): `start` and `convert_plan_executor` leave every field of the plan and of
its sub-nodes as it was, except the fields moved out of it: the output columns of the
Projection directly under a Mutation of kind Select (for `start`) and the predicates of
the Joins. A Utility plan, a SchemaChange plan and a Mutation of kind Insert are left by
`start` exactly as they were. -/
theorem C9_plan_unchanged_up_to_moved_fields {σ : Type} (self : Portal)
    (m : ExecutorMethods σ) (fuel : Nat) (plan : Plan) (context : Context) (tag : PlanTag)
    (name : String) (names : List String) (vals : List Value) (conds : List Condition)
    (sets : List SetClause) :
    (self.start m fuel plan context).plan.without_select_cols.without_join_conds
        = plan.without_select_cols.without_join_conds ∧
    (self.convert_plan_executor plan context).plan.without_join_conds
        = plan.without_join_conds ∧
    (self.start m fuel (.OtherPlan tag name) context).plan = .OtherPlan tag name ∧
    (self.start m fuel (.DDLPlan tag name names) context).plan = .DDLPlan tag name names ∧
    (self.start m fuel (.DMLPlan .T_Insert plan name vals conds sets) context).plan
        = .DMLPlan .T_Insert plan name vals conds sets :=
  ⟨start_plan_frame self m fuel plan context,
    convert_plan_without_join_conds self context plan, rfl, rfl, rfl⟩

/-- C10: for a Mutation plan of kind Select whose subplan is `Projection(child, cols)`,
`start` returns a statement with tag `PORTAL_ONE_SELECT`, whose root is the
`ProjectionExecutor` over the lowered child with the columns `cols`, that is the
lowering of the whole Projection subplan, and whose output columns are `cols`; over a
Scan of a table the root is the Projection over the sequential scan or the index scan
the plan names, with the plan's predicate. -/
theorem C10_select_lowers_the_projection {σ : Type} (self : Portal) (m : ExecutorMethods σ)
    (fuel : Nat) (ptag : PlanTag) (child : Plan) (cols : List TabCol) (tab : String)
    (vals : List Value) (conds : List Condition) (sets : List SetClause) (context : Context)
    (stag : PlanTag) (t : String) (pred : List Condition) (idx : List String) :
    (self.start m fuel
        (.DMLPlan .T_select (.ProjectionPlan ptag child cols) tab vals conds sets)
        context).value
      = .returns ⟨.PORTAL_ONE_SELECT, cols,
          .ProjectionExecutor (self.convert_plan_executor child context).value cols,
          .DMLPlan .T_select
            (.ProjectionPlan ptag (self.convert_plan_executor child context).plan []) tab vals
            conds sets⟩ ∧
    AbstractExecutor.ProjectionExecutor (self.convert_plan_executor child context).value cols
      = (self.convert_plan_executor (.ProjectionPlan ptag child cols) context).value ∧
    (self.start m fuel
        (.DMLPlan .T_select (.ProjectionPlan ptag (.ScanPlan stag t pred idx) cols) tab vals
          conds sets) context).value
      = .returns ⟨.PORTAL_ONE_SELECT, cols,
          .ProjectionExecutor
            (if stag = .T_SeqScan then .SeqScanExecutor self.sm_manager_ t pred context
              else .IndexScanExecutor self.sm_manager_ t pred idx context) cols,
          .DMLPlan .T_select (.ProjectionPlan ptag (.ScanPlan stag t pred idx) []) tab vals
            conds sets⟩ := by
  refine ⟨rfl, rfl, ?_⟩
  by_cases hs : stag = PlanTag.T_SeqScan <;>
    simp [Portal.start, dynamic_pointer_cast_ProjectionPlan, move_sel_cols_,
      Portal.convert_plan_executor, hs]

/-- C11: for a Mutation plan of kind Insert, `start` returns the statement of shape
`PORTAL_DML_WITHOUT_SELECT` whose root is the `InsertExecutor` built from the plan's
table name and literal values; the one thing it does is this construction: no scan
operator is built and none of the iteration methods is called; the subplan, the scan
behaviour and the fuel play no part in the result, and the plan is left as it was. -/
theorem C11_insert_builds_only_the_insert_operator {σ : Type} (self : Portal)
    (m : ExecutorMethods σ) (fuel : Nat) (sub : Plan) (tab : String) (vals : List Value)
    (conds : List Condition) (sets : List SetClause) (context : Context) :
    (self.start m fuel (.DMLPlan .T_Insert sub tab vals conds sets) context).value
        = .returns ⟨.PORTAL_DML_WITHOUT_SELECT, [],
            .InsertExecutor self.sm_manager_ tab vals context,
            .DMLPlan .T_Insert sub tab vals conds sets⟩ ∧
    (self.start m fuel (.DMLPlan .T_Insert sub tab vals conds sets) context).trace
        = [.make (.InsertExecutor self.sm_manager_ tab vals context)] ∧
    (self.start m fuel (.DMLPlan .T_Insert sub tab vals conds sets) context).plan
        = .DMLPlan .T_Insert sub tab vals conds sets :=
  ⟨rfl, rfl, rfl⟩

/-- C16: `drop` is idempotent: in every state two calls leave the state one call leaves,
and every call, the first one included, leaves the state as it found it. -/
theorem C16_drop_is_idempotent (w : World) (n : Nat) :
    w.drop.drop = w.drop ∧ w.drop = w ∧ (World.drop^[n]) w = w := by
  have h : ∀ v : World, v.drop = v := fun v => rfl
  refine ⟨rfl, rfl, ?_⟩
  induction n with
  | zero => rfl
  | succ k ih => rw [Function.iterate_succ_apply, h w, ih]

/-- C17 (the code at the failing input): `drop` has an empty body and reaches no
statement. After compiling `DELETE FROM t WHERE a = 1` over three rows and calling
`drop` without `run`, the statement is the one `start` returned: it still holds its
operator tree, a `DeleteExecutor`, and the three captured row identifiers in it. -/
theorem C17_drop_keeps_the_operator_tree :
    ((world0.start (fun _ => list_scan three_rows) (fun _ db => db) 10 delete_plan
        context0).drop).stmt
      = some ⟨.PORTAL_DML_WITHOUT_SELECT, [],
          .DeleteExecutor ⟨0⟩ "t" [cond_a_eq_1] three_rows context0, delete_plan⟩ ∧
    ((world0.start (fun _ => list_scan three_rows) (fun _ db => db) 10 delete_plan
        context0).drop).stmt
      = (world0.start (fun _ => list_scan three_rows) (fun _ db => db) 10 delete_plan
        context0).stmt ∧
    (AbstractExecutor.DeleteExecutor ⟨0⟩ "t" [cond_a_eq_1] three_rows
        context0).retained_rids = three_rows := by
  decide

/-- C20: `run` consumes the operator tree and leaves the rest of the statement: after
`run` a `PORTAL_ONE_SELECT` statement has a null root and no output columns, a
`PORTAL_DML_WITHOUT_SELECT` statement has a null root, both with tag and plan as before;
a `PORTAL_MULTI_QUERY` or `PORTAL_CMD_UTILITY` statement is unchanged in every field. A
second `run` of the first two hands a null operator to the collaborator. -/
theorem C20_run_consumes_the_operator_tree (self : Portal) (ql : QlManager)
    (sel_cols : List TabCol) (root : AbstractExecutor) (plan : Plan) (txn_id : txn_id_t)
    (context : Context) :
    (self.run ⟨.PORTAL_ONE_SELECT, sel_cols, root, plan⟩ ql txn_id context).portal
        = ⟨.PORTAL_ONE_SELECT, [], .nullptr, plan⟩ ∧
    (self.run ⟨.PORTAL_DML_WITHOUT_SELECT, sel_cols, root, plan⟩ ql txn_id context).portal
        = ⟨.PORTAL_DML_WITHOUT_SELECT, sel_cols, .nullptr, plan⟩ ∧
    (self.run ⟨.PORTAL_MULTI_QUERY, sel_cols, root, plan⟩ ql txn_id context).portal
        = ⟨.PORTAL_MULTI_QUERY, sel_cols, root, plan⟩ ∧
    (self.run ⟨.PORTAL_CMD_UTILITY, sel_cols, root, plan⟩ ql txn_id context).portal
        = ⟨.PORTAL_CMD_UTILITY, sel_cols, root, plan⟩ ∧
    (self.run
        (self.run ⟨.PORTAL_ONE_SELECT, sel_cols, root, plan⟩ ql txn_id context).portal
        ql txn_id context).calls = [.select_from .nullptr [] context] ∧
    (self.run
        (self.run ⟨.PORTAL_DML_WITHOUT_SELECT, sel_cols, root, plan⟩ ql txn_id
          context).portal
        ql txn_id context).calls = [.run_dml .nullptr] :=
  ⟨rfl, rfl, rfl, rfl, rfl, rfl⟩

/-- C19: every compiled statement `start` returns is well-formed: its tag is not
`PORTAL_Invalid_Query`, its root is present exactly when the tag is `PORTAL_ONE_SELECT`
or `PORTAL_DML_WITHOUT_SELECT`, its output columns are empty unless the tag is
`PORTAL_ONE_SELECT`; `run` on it makes one call into the `QlManager`, that is, it takes
one of the four branches and not the throwing default. -/
theorem C19_started_statements_are_well_formed {σ : Type} (self : Portal)
    (m : ExecutorMethods σ) (fuel : Nat) (plan : Plan) (context : Context)
    (stmt : PortalStmt)
    (h : (self.start m fuel plan context).value = .returns stmt) :
    stmt.tag ≠ .PORTAL_Invalid_Query ∧
    (stmt.root ≠ .nullptr ↔
      stmt.tag = .PORTAL_ONE_SELECT ∨ stmt.tag = .PORTAL_DML_WITHOUT_SELECT) ∧
    (stmt.tag ≠ .PORTAL_ONE_SELECT → stmt.sel_cols = []) ∧
    ∀ (ql : QlManager) (txn_id : txn_id_t) (ctx : Context),
      (self.run stmt ql txn_id ctx).calls.length = 1 ∧
      (self.run stmt ql txn_id ctx).calls ≠ [] := by
  cases plan with
  | DMLPlan tag sub tab vals conds sets =>
      cases tag with
      | T_select =>
          cases sub <;>
            simp [Portal.start, dynamic_pointer_cast_ProjectionPlan, move_sel_cols_,
              Portal.convert_plan_executor] at h
          subst h
          simp [Portal.run]
      | T_Update =>
          simp only [Portal.start] at h
          split at h <;> simp at h
          subst h
          simp [Portal.run]
      | T_Delete =>
          simp only [Portal.start] at h
          split at h <;> simp at h
          subst h
          simp [Portal.run]
      | T_Insert =>
          simp [Portal.start] at h
          subst h
          simp [Portal.run]
      | _ => simp [Portal.start] at h
  | OtherPlan t n =>
      simp [Portal.start] at h
      subst h
      simp [Portal.run]
  | DDLPlan t n c =>
      simp [Portal.start] at h
      subst h
      simp [Portal.run]
  | _ => simp [Portal.start] at h

/-- Witness of C19: the statement compiled for `SELECT * FROM t WHERE a = 1` is
well-formed. -/
theorem C19_started_statements_are_well_formed_witness :
    (portal0.start (list_scan three_rows) 10 select_plan context0).value
      = .returns ⟨.PORTAL_ONE_SELECT, [⟨"t", "a"⟩],
          .ProjectionExecutor (.SeqScanExecutor ⟨0⟩ "t" [cond_a_eq_1] context0) [⟨"t", "a"⟩],
          .DMLPlan .T_select
            (.ProjectionPlan (.T_Other 0) (.ScanPlan .T_SeqScan "t" [cond_a_eq_1] []) [])
            "" [] [] []⟩ ∧
    portalTag.PORTAL_ONE_SELECT ≠ .PORTAL_Invalid_Query :=
  have h : (portal0.start (list_scan three_rows) 10 select_plan context0).value
      = .returns ⟨.PORTAL_ONE_SELECT, [⟨"t", "a"⟩],
          .ProjectionExecutor (.SeqScanExecutor ⟨0⟩ "t" [cond_a_eq_1] context0) [⟨"t", "a"⟩],
          .DMLPlan .T_select
            (.ProjectionPlan (.T_Other 0) (.ScanPlan .T_SeqScan "t" [cond_a_eq_1] []) [])
            "" [] [] []⟩ := by decide
  ⟨h, (C19_started_statements_are_well_formed portal0 (list_scan three_rows) 10 select_plan
    context0 _ h).1⟩

/-! ## Lemmas on compiling twice -/

theorem convert_value_shape (self : Portal) (context : Context) (p : Plan) :
    (self.convert_plan_executor p context).value.shape = p.operator_shape := by
  induction p with
  | ScanPlan tag tab conds idx =>
      by_cases ht : tag = PlanTag.T_SeqScan <;>
        simp [Portal.convert_plan_executor, AbstractExecutor.shape, Plan.operator_shape, ht]
  | _ => simp [Portal.convert_plan_executor, AbstractExecutor.shape, Plan.operator_shape, *]

theorem convert_plan_operator_shape (self : Portal) (context : Context) (p : Plan) :
    (self.convert_plan_executor p context).plan.operator_shape = p.operator_shape := by
  induction p with
  | ScanPlan tag tab conds idx => rw [convert_plan_of_scan]
  | _ => simp [Portal.convert_plan_executor, Plan.operator_shape, *]

theorem convert_plan_of_no_join (self : Portal) (context : Context) (p : Plan)
    (h : p.has_join = false) : (self.convert_plan_executor p context).plan = p := by
  induction p with
  | ScanPlan tag tab conds idx => rw [convert_plan_of_scan]
  | ProjectionPlan tag sub cols ih =>
      simp only [Plan.has_join] at h
      simp [Portal.convert_plan_executor, ih h]
  | SortPlan tag sub col desc ih =>
      simp only [Plan.has_join] at h
      simp [Portal.convert_plan_executor, ih h]
  | JoinPlan tag l r conds => simp [Plan.has_join] at h
  | _ => simp [Portal.convert_plan_executor]

/-- C15 (as stated, refuted): a Delete whose snapshot is taken over a Join compiles on the
first `start`, which moves the Join predicate out of the plan; the second `start` on
the same plan object, with the scan behaviour unchanged, drives a join without
predicate and throws: it yields no second statement. -/
theorem C15_counterexample :
    (portal0.start faulty_join_scan 10 delete_over_join_plan context0).value
      = .returns ⟨.PORTAL_DML_WITHOUT_SELECT, [],
          .DeleteExecutor ⟨0⟩ "x" [cond_a_eq_1] [⟨1, 0⟩] context0,
          .DMLPlan .T_Delete
            (.JoinPlan (.T_Other 2) (.ScanPlan .T_SeqScan "x" [] [])
              (.ScanPlan .T_SeqScan "y" [] []) [])
            "x" [] [cond_a_eq_1] []⟩ ∧
    (portal0.start faulty_join_scan 10
        (portal0.start faulty_join_scan 10 delete_over_join_plan context0).plan
        context0).value
      = .throws (.other "predicate evaluation") := by
  decide

/-- C15 (amended): compiling the same plan object twice, with the scan behaviour
unchanged, is deterministic in tag and shape: when the first `start` returns a
statement, every statement the second `start` returns has the same tag and an operator
tree of the same shape; and the second `start` does return one, unless the plan is an
Update or Delete whose snapshot is taken over a Join (the first call has moved the Join
predicate out of the plan, so the second snapshot is another scan). -/
theorem C15_compiling_twice_gives_the_same_shape {σ : Type} (self : Portal)
    (m : ExecutorMethods σ) (fuel : Nat) (plan : Plan) (context : Context) (s1 : PortalStmt)
    (h1 : (self.start m fuel plan context).value = .returns s1) :
    (∀ s2, (self.start m fuel (self.start m fuel plan context).plan context).value
        = .returns s2 → s2.tag = s1.tag ∧ s2.root.shape = s1.root.shape) ∧
    (plan.snapshot_over_join = false →
      ∃ s2, (self.start m fuel (self.start m fuel plan context).plan context).value
          = .returns s2 ∧ s2.tag = s1.tag ∧ s2.root.shape = s1.root.shape) := by
  cases plan with
  | DMLPlan tag sub tab vals conds sets =>
      cases tag with
      | T_select =>
          cases sub with
          | ProjectionPlan ptag child cols =>
              simp only [Portal.start, dynamic_pointer_cast_ProjectionPlan, move_sel_cols_,
                Portal.convert_plan_executor, Outcome.returns.injEq] at h1 ⊢
              subst h1
              simp [AbstractExecutor.shape, convert_value_shape, convert_plan_operator_shape]
          | _ =>
              simp [Portal.start, dynamic_pointer_cast_ProjectionPlan, move_sel_cols_,
                Portal.convert_plan_executor] at h1
      | T_Update =>
          cases hc : (collect_rids m fuel (self.convert_plan_executor sub context).value).1 <;>
            simp only [Portal.start, hc] at h1 <;> try cases h1
          refine ⟨?_, ?_⟩
          · intro s2 h2
            simp only [Portal.start, hc] at h2
            split at h2 <;> simp at h2
            subst h2
            simp [AbstractExecutor.shape]
          · intro hj
            simp only [Plan.snapshot_over_join] at hj
            simp [Portal.start, hc, convert_plan_of_no_join self context sub hj]
      | T_Delete =>
          cases hc : (collect_rids m fuel (self.convert_plan_executor sub context).value).1 <;>
            simp only [Portal.start, hc] at h1 <;> try cases h1
          refine ⟨?_, ?_⟩
          · intro s2 h2
            simp only [Portal.start, hc] at h2
            split at h2 <;> simp at h2
            subst h2
            simp [AbstractExecutor.shape]
          · intro hj
            simp only [Plan.snapshot_over_join] at hj
            simp [Portal.start, hc, convert_plan_of_no_join self context sub hj]
      | T_Insert =>
          simp only [Portal.start, Outcome.returns.injEq] at h1 ⊢
          subst h1
          simp
      | _ => simp [Portal.start] at h1
  | OtherPlan t n =>
      simp only [Portal.start, Outcome.returns.injEq] at h1 ⊢
      subst h1
      simp
  | DDLPlan t n c =>
      simp only [Portal.start, Outcome.returns.injEq] at h1 ⊢
      subst h1
      simp
  | _ => simp [Portal.start] at h1

/-- Witness of C15: a SELECT over a sorted join compiles twice to trees of the same
shape, although the first compilation has emptied the Join predicate and the output
columns of the plan. -/
theorem C15_compiling_twice_gives_the_same_shape_witness :
    select_join_plan.snapshot_over_join = false ∧
    (portal0.start (list_scan three_rows) 10 select_join_plan context0).plan
        ≠ select_join_plan ∧
    ∃ s2, (portal0.start (list_scan three_rows) 10
          (portal0.start (list_scan three_rows) 10 select_join_plan context0).plan
          context0).value = .returns s2 ∧
      s2.tag = .PORTAL_ONE_SELECT ∧
      s2.root.shape = .Projection (.Sort (.NestedLoopJoin .SeqScan .IndexScan)) :=
  ⟨by decide, by decide,
    (C15_compiling_twice_gives_the_same_shape portal0 (list_scan three_rows) 10
      select_join_plan context0
      ⟨.PORTAL_ONE_SELECT, [⟨"x", "a"⟩],
        .ProjectionExecutor
          (.SortExecutor
            (.NestedLoopJoinExecutor (.SeqScanExecutor ⟨0⟩ "x" [] context0)
              (.IndexScanExecutor ⟨0⟩ "y" [] ["b"] context0) [cond_a_eq_1])
            ⟨"x", "a"⟩ false) [⟨"x", "a"⟩],
        (portal0.start (list_scan three_rows) 10 select_join_plan context0).plan⟩
      (by decide)).2 (by decide)⟩

/-! ## Lemmas on the table scan and on the effects of a call -/

theorem table_scan_observes (holds : List Condition → Row → Bool) (db : Database) :
    ∀ rows : List Row, Observes (table_scan holds db) rows (rows.map Row.rid) := by
  intro rows
  induction rows with
  | nil => simp [Observes, table_scan]
  | cons row rest ih =>
      refine ⟨by simp [table_scan], by simp [table_scan], rest, by simp [table_scan], ih⟩

theorem table_scan_snapshot (holds : List Condition → Row → Bool) (db : Database)
    (self : Portal) (fuel : Nat) (stag : PlanTag) (scanned : String)
    (pred : List Condition) (idx : List String) (context : Context)
    (hfuel : (db.rows scanned).countP (holds pred) < fuel) :
    (collect_rids (table_scan holds db) fuel
        (self.convert_plan_executor (.ScanPlan stag scanned pred idx) context).value).1
      = .returns (((db.rows scanned).filter (holds pred)).map Row.rid) := by
  have hlen : (((db.rows scanned).filter (holds pred)).map Row.rid).length < fuel := by
    rw [List.length_map, ← List.countP_eq_length_filter]
    exact hfuel
  have hloop := for_loop_of_observes (table_scan holds db) _ _
    (table_scan_observes holds db ((db.rows scanned).filter (holds pred))) fuel [] hlen
  by_cases ht : stag = PlanTag.T_SeqScan
  · simp only [Portal.convert_plan_executor, ht, if_true, collect_rids]
    show (for_loop (table_scan holds db) fuel ((db.rows scanned).filter (holds pred)) []).1 = _
    rw [hloop]
    simp
  · simp only [Portal.convert_plan_executor, ht, if_false, collect_rids]
    show (for_loop (table_scan holds db) fuel ((db.rows scanned).filter (holds pred)) []).1 = _
    rw [hloop]
    simp

theorem foldl_of_read_only (effect : Event → Database → Database)
    (hread : ∀ ev db, effect ev db = db) :
    ∀ (trace : List Event) (db : Database),
      trace.foldl (fun d ev => effect ev d) db = db := by
  intro trace
  induction trace with
  | nil => intro db; rfl
  | cons ev rest ih => intro db; rw [List.foldl_cons, hread, ih]

theorem start_tag_of_returns {σ : Type} (self : Portal) (m : ExecutorMethods σ) (fuel : Nat)
    (plan : Plan) (context : Context) (stmt : PortalStmt)
    (h : (self.start m fuel plan context).value = .returns stmt) :
    dispatch_table plan = some stmt.tag := by
  cases plan with
  | DMLPlan tag sub tab vals conds sets =>
      cases tag with
      | T_select =>
          cases sub <;>
            simp [Portal.start, dynamic_pointer_cast_ProjectionPlan, move_sel_cols_,
              Portal.convert_plan_executor] at h
          subst h
          simp [dispatch_table]
      | T_Update =>
          simp only [Portal.start] at h
          split at h <;> simp at h
          subst h
          simp [dispatch_table]
      | T_Delete =>
          simp only [Portal.start] at h
          split at h <;> simp at h
          subst h
          simp [dispatch_table]
      | T_Insert =>
          simp [Portal.start] at h
          subst h
          simp [dispatch_table]
      | _ => simp [Portal.start] at h
  | OtherPlan t n =>
      simp [Portal.start] at h
      subst h
      simp [dispatch_table]
  | DDLPlan t n c =>
      simp [Portal.start] at h
      subst h
      simp [dispatch_table]
  | _ => simp [Portal.start] at h

theorem planner1_plans_by_kind : planner1.plans_by_kind := by
  intro query context
  cases hq : query.parse <;> simp [planner1, hq, select_plan, insert_plan, update_plan,
    delete_plan]

/-- C12 (as stated, refuted): a Delete on `t` with predicate `a = 1` whose Scan carries no
predicate captures the identifiers of all four rows of `t`, while three rows satisfy the
plan's predicate. -/
theorem C12_counterexample :
    (portal0.start (table_scan holds_eq_literal db_t) 10 delete_plan_unfiltered_scan
        context0).value
      = .returns ⟨.PORTAL_DML_WITHOUT_SELECT, [],
          .DeleteExecutor ⟨0⟩ "t" [cond_a_eq_1] [⟨1, 0⟩, ⟨1, 1⟩, ⟨1, 2⟩, ⟨2, 0⟩] context0,
          delete_plan_unfiltered_scan⟩ ∧
    (db_t.rows "t").countP (holds_eq_literal [cond_a_eq_1]) = 3 := by
  decide

/-- C12 (amended): for a Mutation plan of kind Update or Delete whose subplan is a Scan,
over table contents fixed at compile time, `start` (with enough fuel) hands the mutation
operator the identifiers of the rows of the scanned table that satisfy the predicate of
the Scan, in storage order; their number is the number of those rows. It is the number
of rows satisfying the plan's own predicate when the Scan carries that predicate on the
plan's table. The statement holds the identifiers by value: replacing the tables
afterwards leaves it as it is. -/
theorem C12_snapshot_counts_the_rows_the_scan_selects
    (holds : List Condition → Row → Bool) (w : World)
    (effect : Event → Database → Database) (fuel : Nat) (stag : PlanTag)
    (scanned : String) (pred : List Condition) (idx : List String) (tab : String)
    (vals : List Value) (conds : List Condition) (sets : List SetClause)
    (context : Context) (later : Database)
    (hfuel : (w.tables.rows scanned).countP (holds pred) < fuel) :
    (w.portal.start (table_scan holds w.tables) fuel
        (.DMLPlan .T_Update (.ScanPlan stag scanned pred idx) tab vals conds sets)
        context).value
      = .returns ⟨.PORTAL_DML_WITHOUT_SELECT, [],
          .UpdateExecutor w.portal.sm_manager_ tab sets conds
            (((w.tables.rows scanned).filter (holds pred)).map Row.rid) context,
          .DMLPlan .T_Update (.ScanPlan stag scanned pred idx) tab vals conds sets⟩ ∧
    (w.portal.start (table_scan holds w.tables) fuel
        (.DMLPlan .T_Delete (.ScanPlan stag scanned pred idx) tab vals conds sets)
        context).value
      = .returns ⟨.PORTAL_DML_WITHOUT_SELECT, [],
          .DeleteExecutor w.portal.sm_manager_ tab conds
            (((w.tables.rows scanned).filter (holds pred)).map Row.rid) context,
          .DMLPlan .T_Delete (.ScanPlan stag scanned pred idx) tab vals conds sets⟩ ∧
    (((w.tables.rows scanned).filter (holds pred)).map Row.rid).length
      = (w.tables.rows scanned).countP (holds pred) ∧
    (World.mk w.portal
        (w.start (table_scan holds) effect fuel
          (.DMLPlan .T_Delete (.ScanPlan stag scanned pred idx) tab vals conds sets)
          context).stmt later).stmt
      = some ⟨.PORTAL_DML_WITHOUT_SELECT, [],
          .DeleteExecutor w.portal.sm_manager_ tab conds
            (((w.tables.rows scanned).filter (holds pred)).map Row.rid) context,
          .DMLPlan .T_Delete (.ScanPlan stag scanned pred idx) tab vals conds sets⟩ := by
  have hsnap := table_scan_snapshot holds w.tables w.portal fuel stag scanned pred idx
    context hfuel
  have hplan := convert_plan_of_scan w.portal context stag scanned pred idx
  have hU : (w.portal.start (table_scan holds w.tables) fuel
        (.DMLPlan .T_Update (.ScanPlan stag scanned pred idx) tab vals conds sets)
        context).value
      = .returns ⟨.PORTAL_DML_WITHOUT_SELECT, [],
          .UpdateExecutor w.portal.sm_manager_ tab sets conds
            (((w.tables.rows scanned).filter (holds pred)).map Row.rid) context,
          .DMLPlan .T_Update (.ScanPlan stag scanned pred idx) tab vals conds sets⟩ := by
    simp only [Portal.start, hsnap, hplan]
  have hD : (w.portal.start (table_scan holds w.tables) fuel
        (.DMLPlan .T_Delete (.ScanPlan stag scanned pred idx) tab vals conds sets)
        context).value
      = .returns ⟨.PORTAL_DML_WITHOUT_SELECT, [],
          .DeleteExecutor w.portal.sm_manager_ tab conds
            (((w.tables.rows scanned).filter (holds pred)).map Row.rid) context,
          .DMLPlan .T_Delete (.ScanPlan stag scanned pred idx) tab vals conds sets⟩ := by
    simp only [Portal.start, hsnap, hplan]
  refine ⟨hU, hD, ?_, ?_⟩
  · rw [List.length_map, ← List.countP_eq_length_filter]
  · simp only [World.start, hD]

/-- Witness of C12: `DELETE FROM t WHERE a = 1` over a table with three matching rows
among four captures three row identifiers. -/
theorem C12_snapshot_counts_the_rows_the_scan_selects_witness :
    (db_t.rows "t").countP (holds_eq_literal [cond_a_eq_1]) = 3 ∧
    (portal0.start (table_scan holds_eq_literal db_t) 10 delete_plan context0).value
      = .returns ⟨.PORTAL_DML_WITHOUT_SELECT, [],
          .DeleteExecutor ⟨0⟩ "t" [cond_a_eq_1] [⟨1, 0⟩, ⟨1, 2⟩, ⟨2, 0⟩] context0,
          delete_plan⟩ :=
  ⟨by decide,
    (C12_snapshot_counts_the_rows_the_scan_selects holds_eq_literal world0 (fun _ db => db) 10
      .T_SeqScan "t" [cond_a_eq_1] [] "t" [] [cond_a_eq_1] [] context0 db_t
      (by decide)).2.1⟩

/-- C18: with the table contents as explicit state, if the construction of an operator
and the four iteration methods leave the tables as they are, then `start` followed by
`drop`, without `run`, leaves every table as it was before `start`, whatever the plan
and however `start` ends. -/
theorem C18_start_then_drop_leaves_the_tables {σ : Type} (w : World)
    (scans : Database → ExecutorMethods σ) (effect : Event → Database → Database)
    (fuel : Nat) (plan : Plan) (context : Context)
    (hread : ∀ ev db, effect ev db = db) :
    ((w.start scans effect fuel plan context).drop).tables = w.tables ∧
    ∀ tab, ((w.start scans effect fuel plan context).drop).tables.rows tab
      = w.tables.rows tab := by
  have h : ((w.start scans effect fuel plan context).drop).tables = w.tables := by
    simp only [World.start, World.drop]
    exact foldl_of_read_only effect hread _ _
  exact ⟨h, fun tab => by rw [h]⟩

/-- Witness of C18: compiling `DELETE FROM t WHERE a = 1` and dropping the statement
leaves the four rows of `t`. -/
theorem C18_start_then_drop_leaves_the_tables_witness :
    ((world0.start (table_scan holds_eq_literal) (fun _ db => db) 10 delete_plan
        context0).drop).tables = db_t :=
  (C18_start_then_drop_leaves_the_tables world0 (table_scan holds_eq_literal)
    (fun _ db => db) 10 delete_plan context0 (fun _ _ => rfl)).1

/-- C14: with the planner as the spec describes it, a parsed statement that is none of
the seven utility kinds and none of the eight schema-change and data-manipulation kinds
makes `plan_query` throw `InternalError`; it reaches the planner, whose defect leaves
`plan_query` unchanged, and no plan is returned. -/
theorem C14_unknown_kinds_end_in_a_defect (sm : SmManager)
    (plan_for : Query → Context → Plan) (query : Query) (context : Context)
    (h : query.parse.is_utility = false ∧ query.parse.is_ddl = false ∧
      query.parse.is_dml = false) :
    (∃ msg, (Optimizer.plan_query ⟨sm, spec_planner plan_for⟩ query context).value
        = .throws (.InternalError msg)) ∧
    (Optimizer.plan_query ⟨sm, spec_planner plan_for⟩ query context).planner_calls
        = [(query, context)] ∧
    ∀ plan, (Optimizer.plan_query ⟨sm, spec_planner plan_for⟩ query context).value
        ≠ .returns plan := by
  obtain ⟨hu, hd, hm⟩ := h
  cases hq : query.parse <;> simp [hq, TreeNode.is_utility, TreeNode.is_ddl,
    TreeNode.is_dml] at hu hd hm <;>
    simp [Optimizer.plan_query, spec_planner, hq, TreeNode.is_ddl, TreeNode.is_dml]

/-- Witness of C14: a statement whose root is no statement class is rejected. -/
theorem C14_unknown_kinds_end_in_a_defect_witness :
    (Optimizer.plan_query ⟨⟨0⟩, spec_planner (fun _ _ => delete_plan)⟩ unknown_query
        context0).value
      = .throws (.InternalError "statement kind outside the known set") ∧
    ∀ plan, (Optimizer.plan_query ⟨⟨0⟩, spec_planner (fun _ _ => delete_plan)⟩
        unknown_query context0).value ≠ .returns plan :=
  ⟨by decide,
    (C14_unknown_kinds_end_in_a_defect ⟨0⟩ (fun _ _ => delete_plan) unknown_query context0
      ⟨by decide, by decide, by decide⟩).2.2⟩

/-- C13 (as stated, refuted): an UPDATE is a statement of the grammar and the planner
returns a Mutation plan of kind Update for it, yet `start` on the result of `plan_query`
yields no tag when the scan it drives fails: it throws the scan's exception. -/
theorem C13_counterexample :
    planner1.plans_by_kind ∧
    kind_shape update_query.parse = some portalTag.PORTAL_DML_WITHOUT_SELECT ∧
    ((⟨⟨0⟩, planner1⟩ : Optimizer).plan_query update_query context0).value
      = Outcome.returns update_plan ∧
    (portal0.start (faulty_scan three_rows 2) 10 update_plan context0).value
      = Outcome.throws (Exception.other "predicate evaluation") :=
  ⟨planner1_plans_by_kind, by decide, by decide, by decide⟩

/-- C13 (amended): for a parsed statement of a kind of the enumerated grammar and a planner
that returns a SchemaChange plan for the schema-change kinds and a Mutation plan of the
matching kind for the data-manipulation kinds, provided the subplan of a planned Select
is a Projection and the snapshot loop of a planned Update or Delete runs to its end
without failure, `start` on the result of `plan_query` returns a statement whose tag is
the one the statement kind fixes: one of the four shapes, never `PORTAL_Invalid_Query`.
Whatever the scan behaviour and the fuel, no statement with another tag is returned for
that plan. -/
theorem C13_shape_is_fixed_by_the_statement_kind {σ : Type} (opt : Optimizer)
    (self : Portal) (m : ExecutorMethods σ) (fuel : Nat) (query : Query)
    (context : Context) (tag : portalTag)
    (hplanner : opt.planner_.plans_by_kind)
    (hkind : kind_shape query.parse = some tag)
    (hselect : ∀ sub tab vals conds sets,
      (opt.plan_query query context).value
          = .returns (.DMLPlan .T_select sub tab vals conds sets) →
        ∃ ptag child cols, sub = .ProjectionPlan ptag child cols)
    (hsnapshot : ∀ t sub tab vals conds sets,
      (opt.plan_query query context).value = .returns (.DMLPlan t sub tab vals conds sets) →
        t = .T_Update ∨ t = .T_Delete →
        ∃ rids, (collect_rids m fuel (self.convert_plan_executor sub context).value).1
          = .returns rids) :
    ∃ plan stmt, (opt.plan_query query context).value = .returns plan ∧
      (self.start m fuel plan context).value = .returns stmt ∧
      stmt.tag = tag ∧
      tag ≠ .PORTAL_Invalid_Query ∧
      (tag = .PORTAL_ONE_SELECT ∨ tag = .PORTAL_DML_WITHOUT_SELECT ∨
        tag = .PORTAL_MULTI_QUERY ∨ tag = .PORTAL_CMD_UTILITY) ∧
      ∀ (τ : Type) (m2 : ExecutorMethods τ) (fuel2 : Nat) (stmt2 : PortalStmt),
        (self.start m2 fuel2 plan context).value = .returns stmt2 → stmt2.tag = tag := by
  have htag : ∀ (plan : Plan), dispatch_table plan = some tag →
      ∀ (τ : Type) (m2 : ExecutorMethods τ) (fuel2 : Nat) (stmt2 : PortalStmt),
        (self.start m2 fuel2 plan context).value = .returns stmt2 → stmt2.tag = tag := by
    intro plan hd τ m2 fuel2 stmt2 h2
    have := start_tag_of_returns self m2 fuel2 plan context stmt2 h2
    rw [hd] at this
    exact (Option.some.inj this).symm
  have hp := hplanner query context
  cases hq : query.parse with
  | Help =>
      simp only [hq, kind_shape, Option.some.injEq] at hkind
      subst hkind
      exact ⟨.OtherPlan .T_Help "", _, by simp [Optimizer.plan_query, hq], rfl, rfl,
        by simp, by simp, htag _ rfl⟩
  | ShowTables =>
      simp only [hq, kind_shape, Option.some.injEq] at hkind
      subst hkind
      exact ⟨.OtherPlan .T_ShowTable "", _, by simp [Optimizer.plan_query, hq], rfl, rfl,
        by simp, by simp, htag _ rfl⟩
  | DescTable name =>
      simp only [hq, kind_shape, Option.some.injEq] at hkind
      subst hkind
      exact ⟨.OtherPlan .T_DescTable name, _, by simp [Optimizer.plan_query, hq], rfl, rfl,
        by simp, by simp, htag _ rfl⟩
  | TxnBegin =>
      simp only [hq, kind_shape, Option.some.injEq] at hkind
      subst hkind
      exact ⟨.OtherPlan .T_Transaction_begin "", _, by simp [Optimizer.plan_query, hq], rfl,
        rfl, by simp, by simp, htag _ rfl⟩
  | TxnAbort =>
      simp only [hq, kind_shape, Option.some.injEq] at hkind
      subst hkind
      exact ⟨.OtherPlan .T_Transaction_abort "", _, by simp [Optimizer.plan_query, hq], rfl,
        rfl, by simp, by simp, htag _ rfl⟩
  | TxnCommit =>
      simp only [hq, kind_shape, Option.some.injEq] at hkind
      subst hkind
      exact ⟨.OtherPlan .T_Transaction_commit "", _, by simp [Optimizer.plan_query, hq], rfl,
        rfl, by simp, by simp, htag _ rfl⟩
  | TxnRollback =>
      simp only [hq, kind_shape, Option.some.injEq] at hkind
      subst hkind
      exact ⟨.OtherPlan .T_Transaction_rollback "", _, by simp [Optimizer.plan_query, hq],
        rfl, rfl, by simp, by simp, htag _ rfl⟩
  | CreateTable name fields =>
      simp only [hq, kind_shape, Option.some.injEq] at hkind
      subst hkind
      simp only [hq] at hp
      obtain ⟨t, n, c, hdo⟩ := hp
      exact ⟨.DDLPlan t n c, _, by simp [Optimizer.plan_query, hq, hdo], rfl, rfl,
        by simp, by simp, htag _ rfl⟩
  | DropTable name =>
      simp only [hq, kind_shape, Option.some.injEq] at hkind
      subst hkind
      simp only [hq] at hp
      obtain ⟨t, n, c, hdo⟩ := hp
      exact ⟨.DDLPlan t n c, _, by simp [Optimizer.plan_query, hq, hdo], rfl, rfl,
        by simp, by simp, htag _ rfl⟩
  | CreateIndex name cols =>
      simp only [hq, kind_shape, Option.some.injEq] at hkind
      subst hkind
      simp only [hq] at hp
      obtain ⟨t, n, c, hdo⟩ := hp
      exact ⟨.DDLPlan t n c, _, by simp [Optimizer.plan_query, hq, hdo], rfl, rfl,
        by simp, by simp, htag _ rfl⟩
  | DropIndex name cols =>
      simp only [hq, kind_shape, Option.some.injEq] at hkind
      subst hkind
      simp only [hq] at hp
      obtain ⟨t, n, c, hdo⟩ := hp
      exact ⟨.DDLPlan t n c, _, by simp [Optimizer.plan_query, hq, hdo], rfl, rfl,
        by simp, by simp, htag _ rfl⟩
  | InsertStmt name vals =>
      simp only [hq, kind_shape, Option.some.injEq] at hkind
      subst hkind
      simp only [hq] at hp
      obtain ⟨sub, tab, vs, cs, ss, hdo⟩ := hp
      exact ⟨.DMLPlan .T_Insert sub tab vs cs ss, _, by simp [Optimizer.plan_query, hq, hdo],
        rfl, rfl, by simp, by simp, htag _ rfl⟩
  | SelectStmt cols tabs conds =>
      simp only [hq, kind_shape, Option.some.injEq] at hkind
      subst hkind
      simp only [hq] at hp
      obtain ⟨sub, tab, vs, cs, ss, hdo⟩ := hp
      have hv : (opt.plan_query query context).value
          = .returns (.DMLPlan .T_select sub tab vs cs ss) := by
        simp [Optimizer.plan_query, hq, hdo]
      obtain ⟨ptag, child, pcols, rfl⟩ := hselect sub tab vs cs ss hv
      exact ⟨_, _, hv, rfl, rfl, by simp, by simp, htag _ rfl⟩
  | UpdateStmt name sets conds =>
      simp only [hq, kind_shape, Option.some.injEq] at hkind
      subst hkind
      simp only [hq] at hp
      obtain ⟨sub, tab, vs, cs, ss, hdo⟩ := hp
      have hv : (opt.plan_query query context).value
          = .returns (.DMLPlan .T_Update sub tab vs cs ss) := by
        simp [Optimizer.plan_query, hq, hdo]
      obtain ⟨rids, hr⟩ := hsnapshot _ sub tab vs cs ss hv (Or.inl rfl)
      exact ⟨_, ⟨.PORTAL_DML_WITHOUT_SELECT, [],
          .UpdateExecutor self.sm_manager_ tab ss cs rids context,
          .DMLPlan .T_Update (self.convert_plan_executor sub context).plan tab vs cs ss⟩,
        hv, by simp only [Portal.start, hr], rfl, by simp, by simp, htag _ rfl⟩
  | DeleteStmt name conds =>
      simp only [hq, kind_shape, Option.some.injEq] at hkind
      subst hkind
      simp only [hq] at hp
      obtain ⟨sub, tab, vs, cs, ss, hdo⟩ := hp
      have hv : (opt.plan_query query context).value
          = .returns (.DMLPlan .T_Delete sub tab vs cs ss) := by
        simp [Optimizer.plan_query, hq, hdo]
      obtain ⟨rids, hr⟩ := hsnapshot _ sub tab vs cs ss hv (Or.inr rfl)
      exact ⟨_, ⟨.PORTAL_DML_WITHOUT_SELECT, [],
          .DeleteExecutor self.sm_manager_ tab cs rids context,
          .DMLPlan .T_Delete (self.convert_plan_executor sub context).plan tab vs cs ss⟩,
        hv, by simp only [Portal.start, hr], rfl, by simp, by simp, htag _ rfl⟩
  | _ => simp [hq, kind_shape] at hkind

/-- Witness of C13: `delete from t where a = 1;`, planned and compiled over a scan of
three rows, gives the shape `PORTAL_DML_WITHOUT_SELECT` its kind fixes. -/
theorem C13_shape_is_fixed_by_the_statement_kind_witness :
    planner1.plans_by_kind ∧
    kind_shape delete_query.parse = some portalTag.PORTAL_DML_WITHOUT_SELECT ∧
    ∃ plan stmt, ((⟨⟨0⟩, planner1⟩ : Optimizer).plan_query delete_query context0).value
        = .returns plan ∧
      (portal0.start (list_scan three_rows) 10 plan context0).value = .returns stmt ∧
      stmt.tag = .PORTAL_DML_WITHOUT_SELECT :=
  have h := C13_shape_is_fixed_by_the_statement_kind ⟨⟨0⟩, planner1⟩ portal0
    (list_scan three_rows) 10 delete_query context0 .PORTAL_DML_WITHOUT_SELECT
    planner1_plans_by_kind (by decide)
    (by
      intro sub tab vals conds sets hv
      have hd : ((⟨⟨0⟩, planner1⟩ : Optimizer).plan_query delete_query context0).value
          = .returns delete_plan := by decide
      rw [hd] at hv
      simp [delete_plan] at hv)
    (by
      intro t sub tab vals conds sets hv _
      have hd : ((⟨⟨0⟩, planner1⟩ : Optimizer).plan_query delete_query context0).value
          = .returns delete_plan := by decide
      rw [hd] at hv
      simp only [delete_plan, Outcome.returns.injEq, Plan.DMLPlan.injEq] at hv
      obtain ⟨-, rfl, -⟩ := hv
      exact ⟨three_rows, by decide⟩)
  ⟨planner1_plans_by_kind, by decide,
    h.elim fun plan hp => hp.elim fun stmt hs => ⟨plan, stmt, hs.1, hs.2.1, hs.2.2.1⟩⟩

end Rucbase
